import Mathlib

/-!
Shallow embedding of `premierecutter.py` (a Final Cut Pro / Premiere XML
generator) together with a verification of its timeline-assembly engine.

The Python source is translated function by function:

* `timecode_to_frames`, `parse_cut_table`, `generate_xml` keep their names.
* Python builtins (`str.split`, `str.strip`, `int(...)`, `"x" in s`,
  truthiness of strings, dict insertion-order semantics) are modelled by
  the `py...` helpers below; they are written by structural recursion so
  that concrete runs reduce inside the kernel.
* The XML-producing part of `generate_xml` is split into the state-passing
  assembly loop (`assemble`, emitting `VElem`/`AElem` records that carry
  exactly the values the Python code interpolates into its f-string
  templates) and the string renderer (`media_clip_xml`,
  `create_title_card_xml`, `create_transition_xml`, `xml_content`) which
  reproduces the templates verbatim.
* Effects that leave the engine (writing PNG title cards, `os.path.abspath`,
  random UUIDs) are modelled as parameters: `abspath` is passed in as a
  function, the sequence UUID as a string; `create_title_card_image` only
  influences the document through the image path, which the embedding
  computes the same way the source does.
-/

/-- Python's notion of whitespace for `str.strip` (ASCII part). -/
def isPySpace (c : Char) : Bool :=
  c.isWhitespace || c == '\x0b' || c == '\x0c'

/-- Python `s.strip()`. -/
def pyStrip (s : String) : String :=
  ⟨((s.data.dropWhile isPySpace).reverse.dropWhile isPySpace).reverse⟩

/-- Fuel-driven worker for `pySplit`; the fuel is an upper bound on the
number of characters consumed, so `s.length + 1` always suffices. -/
def splitOnListAux (sep : List Char) : Nat → List Char → List Char → List (List Char)
  | 0, _, acc => [acc.reverse]
  | _ + 1, [], acc => [acc.reverse]
  | fuel + 1, c :: rest, acc =>
    if sep.isPrefixOf (c :: rest) then
      acc.reverse :: splitOnListAux sep fuel ((c :: rest).drop sep.length) []
    else
      splitOnListAux sep fuel rest (c :: acc)

/-- Python `s.split(sep)` for a non-empty separator: split on each
non-overlapping occurrence, scanning left to right. -/
def pySplit (sep s : String) : List String :=
  if sep.data = [] then [s]
  else (splitOnListAux sep.data (s.data.length + 1) s.data []).map (fun l => ⟨l⟩)

/-- Python `sep.join(xs)`. -/
def pyJoin (sep : String) : List String → String
  | [] => ""
  | [x] => x
  | x :: y :: xs => x ++ sep ++ pyJoin sep (y :: xs)

/-- Python `pre in s` specialised to a single character. -/
def pyContains (c : Char) (s : String) : Bool :=
  s.data.contains c

/-- Python `s.startswith(pre)`. -/
def pyStartsWith (pre s : String) : Bool :=
  pre.data.isPrefixOf s.data

/-- Digit accumulator for `pyInt`; `none` when a non-digit appears. -/
def pyDigits : List Char → Nat → Option Nat
  | [], acc => some acc
  | c :: cs, acc =>
    if c.isDigit then pyDigits cs (acc * 10 + (c.toNat - 48)) else none

/-- Python `int(s)`: optional sign, at least one ASCII digit, surrounding
whitespace stripped (digit-group underscores are not modelled; no input in
this development uses them). Returns `none` where Python raises
`ValueError`. -/
def pyInt (s : String) : Option Int :=
  match (pyStrip s).data with
  | [] => none
  | '-' :: cs => if cs = [] then none else (pyDigits cs 0).map (fun n => -(n : Int))
  | '+' :: cs => if cs = [] then none else (pyDigits cs 0).map (fun n => (n : Int))
  | cs => (pyDigits cs 0).map (fun n => (n : Int))

/-- Python truthiness of an optional string (`None` and `""` are falsy). -/
def pyTruthy (o : Option String) : Bool :=
  o.getD "" != ""

/-- `timecode_to_frames` from the source: convert a 3- or 4-field
colon-separated timecode to a frame count; 3 fields are read as
hours/minutes/seconds with `frames = 0`. Python exceptions become
`Except.error`. -/
def timecode_to_frames (timecode : String) (fps : Int) : Except String Int :=
  match pySplit (":") timecode with
  | [hs, ms, ss] =>
    match pyInt hs, pyInt ms, pyInt ss with
    | some hours, some minutes, some seconds =>
      Except.ok ((hours * 3600 + minutes * 60 + seconds) * fps + 0)
    | _, _, _ => Except.error ("invalid literal for int() in: " ++ timecode)
  | [hs, ms, ss, fs] =>
    match pyInt hs, pyInt ms, pyInt ss, pyInt fs with
    | some hours, some minutes, some seconds, some frames_ =>
      Except.ok ((hours * 3600 + minutes * 60 + seconds) * fps + frames_)
    | _, _, _, _ => Except.error ("invalid literal for int() in: " ++ timecode)
  | _ => Except.error ("Invalid timecode format: " ++ timecode)

/-- One cut record as produced by `parse_cut_table`
(`{"start": ..., "end": ..., "label": ...}`). -/
structure Cut where
  start : String
  «end» : String
  label : String
deriving DecidableEq, Repr

/-- Python `sources[k] = v` on an insertion-ordered dict: replacing an
existing key keeps its position, a new key is appended. -/
def dictSet (m : List (String × List Cut)) (k : String) (v : List Cut) :
    List (String × List Cut) :=
  if m.any (fun p => p.1 == k) then
    m.map (fun p => if p.1 == k then (p.1, v) else p)
  else
    m ++ [(k, v)]

/-- Python `sources[k].append(c)` (the key is always present at call sites). -/
def dictAppend (m : List (String × List Cut)) (k : String) (c : Cut) :
    List (String × List Cut) :=
  m.map (fun p => if p.1 == k then (p.1, p.2 ++ [c]) else p)

/-- The loop body of `parse_cut_table`, acting on the state
`(filename, sources, current_source)`. A cut line whose pre-comma text
does not split on `-` into exactly two pieces makes the tuple unpacking
`start_time, end_time = timecode_part.split("-")` raise `ValueError`. -/
def parseLine (st : Option String × List (String × List Cut) × Option String)
    (line : String) :
    Except String (Option String × List (String × List Cut) × Option String) :=
  if pyStartsWith ("FILENAME:") line then
    Except.ok (some (pyStrip ((pySplit ("FILENAME:") line).getD 1 (""))), st.2.1, st.2.2)
  else if pyStartsWith ("SOURCE:") line then
    let cs := pyStrip ((pySplit ("SOURCE:") line).getD 1 (""))
    Except.ok (st.1, dictSet st.2.1 cs [], some cs)
  else if pyTruthy st.2.2 && pyContains '-' line && pyContains ',' line then
    let pieces := pySplit (",") line
    let timecode_part := pieces.headD ("")
    let label := pyJoin (",") pieces.tail
    match pySplit ("-") timecode_part with
    | [start_time, end_time] =>
      Except.ok (st.1,
        dictAppend st.2.1 (st.2.2.getD (""))
          { start := pyStrip start_time, «end» := pyStrip end_time, label := pyStrip label },
        st.2.2)
    | _ => Except.error ("ValueError: timecode range does not unpack into two values: " ++ line)
  else
    Except.ok st

/-- `parse_cut_table` from the source: strip the text, drop blank lines and
fold `parseLine` over the rest, returning `(filename, sources)`. -/
def parse_cut_table (table_text : String) :
    Except String (Option String × List (String × List Cut)) := do
  let lines := ((pySplit ("\n") (pyStrip table_text)).map pyStrip).filter (fun l => l ≠ "")
  let r ← lines.foldlM parseLine (none, [], none)
  return (r.1, r.2.1)

/-! ## The assembly state machine inside `generate_xml` -/

/-- A video-track element, carrying exactly the values `generate_xml`
interpolates into the corresponding XML template: a media clip item, a
title-card clip item, or a cross-dissolve transition item. -/
inductive VElem where
  | clip (clip_id masterclip_id file_id : Nat) (source_file : String)
      (start «end» inF outF : Int)
  | title (clip_id : Nat) (card_text : String) (start dur : Int) (image_path : String)
  | transition (start «end» : Int)
deriving DecidableEq, Repr

/-- An audio-track clip item (`audio-clipitem-{id}` / `audio-clipitem-{id}-2`). -/
structure AElem where
  clip_id : Nat
  masterclip_id : Nat
  file_id : Nat
  source_file : String
  start : Int
  «end» : Int
  inF : Int
  outF : Int
  trackindex : Nat
deriving DecidableEq, Repr

/-- The mutable state of the loop in `generate_xml`. -/
structure GenState where
  video_clips : List VElem
  audio_clips : List AElem
  current_start : Int
  clip_id_counter : Nat
  source_file_ids : List (String × Nat)
  source_masterclip_ids : List (String × Nat)
  file_id_counter : Nat
deriving DecidableEq, Repr

/-- `transition_duration = 15` (0.5 s at 30 fps). -/
def transition_duration : Int := 15

/-- `title_duration = 210` (7 s at 30 fps). -/
def title_duration : Int := 210

/-- State at the top of `generate_xml`: empty tracks, cursor 0,
`clip_id_counter = 4`, `file_id_counter = 1`. -/
def initState : GenState :=
  { video_clips := [], audio_clips := [], current_start := 0, clip_id_counter := 4,
    source_file_ids := [], source_masterclip_ids := [], file_id_counter := 1 }

/-- POSIX `os.path.join` for the two-argument calls in the source. -/
def joinPath (a b : String) : String := a ++ "/" ++ b

/-- Python dict lookup on an association list (`source_file_ids[k]`). -/
def dictGet (m : List (String × Nat)) (k : String) : Option Nat :=
  match m with
  | [] => none
  | p :: t => if p.1 = k then some p.2 else dictGet t k

/-- The `if include_title_cards and title_before_first:` block of
`generate_xml`: emit the intro title card at the cursor, advance the cursor
by `title_duration`, then emit a transition centred at the new cursor
(which does not advance the cursor). `bg_color` only affects the rendered
PNG, not the document. -/
def introStep (full_dir bg_color title_text : String) (st : GenState) : GenState :=
  let card_text := if title_text = "" then "Intro Title" else title_text
  let image_path := joinPath full_dir ("title_card_" ++ toString st.clip_id_counter ++ ".png")
  let st1 : GenState := { st with
    video_clips := st.video_clips ++
      [VElem.title st.clip_id_counter card_text st.current_start title_duration image_path],
    current_start := st.current_start + title_duration,
    clip_id_counter := st.clip_id_counter + 1 }
  let transition_start := st1.current_start - transition_duration / 2
  let transition_end := st1.current_start + transition_duration / 2
  { st1 with video_clips := st1.video_clips ++ [VElem.transition transition_start transition_end] }

/-- The body of the inner cut loop of `generate_xml` after the two timecode
conversions succeeded: emit the media clip and its two audio clips, advance
the cursor by the clip duration, and, when title cards are on and this is
not the source's last cut, emit transition + title card + transition
(advancing the cursor by `title_duration` for the title only); finally
post-increment `clip_id_counter`. -/
def processCutOk (itc : Bool) (tt dir sf : String) (fid mid n : Nat)
    (st : GenState) (i : Nat) (cut : Cut) (start_frames end_frames : Int) : GenState :=
  let duration := end_frames - start_frames
  let st1 : GenState := { st with
    video_clips := st.video_clips ++
      [VElem.clip st.clip_id_counter mid fid sf st.current_start (st.current_start + duration)
        start_frames end_frames],
    audio_clips := st.audio_clips ++
      [{ clip_id := st.clip_id_counter, masterclip_id := mid, file_id := fid, source_file := sf,
         start := st.current_start, «end» := st.current_start + duration,
         inF := start_frames, outF := end_frames, trackindex := 1 },
       { clip_id := st.clip_id_counter, masterclip_id := mid, file_id := fid, source_file := sf,
         start := st.current_start, «end» := st.current_start + duration,
         inF := start_frames, outF := end_frames, trackindex := 2 }],
    current_start := st.current_start + duration }
  let st2 : GenState :=
    if itc ∧ i < n - 1 then
      let stA : GenState := { st1 with
        video_clips := st1.video_clips ++
          [VElem.transition (st1.current_start - transition_duration / 2)
            (st1.current_start + transition_duration / 2)] }
      let next_id := stA.clip_id_counter + 1
      let card_text := if tt = "" then cut.label else tt
      let image_path := joinPath dir ("title_card_" ++ toString next_id ++ ".png")
      let stB : GenState := { stA with
        video_clips := stA.video_clips ++
          [VElem.title next_id card_text stA.current_start title_duration image_path],
        current_start := stA.current_start + title_duration,
        clip_id_counter := next_id }
      { stB with
        video_clips := stB.video_clips ++
          [VElem.transition (stB.current_start - transition_duration / 2)
            (stB.current_start + transition_duration / 2)] }
    else st1
  { st2 with clip_id_counter := st2.clip_id_counter + 1 }

/-- One iteration of the inner cut loop: convert both timecodes (exceptions
propagate) and run `processCutOk`. -/
def processCut (itc : Bool) (tt bg dir sf : String) (fid mid n : Nat)
    (st : GenState) (ic : Nat × Cut) : Except String GenState :=
  match timecode_to_frames ic.2.start 30 with
  | Except.error e => Except.error e
  | Except.ok start_frames =>
    match timecode_to_frames ic.2.«end» 30 with
    | Except.error e => Except.error e
    | Except.ok end_frames =>
      Except.ok (processCutOk itc tt dir sf fid mid n st ic.1 ic.2 start_frames end_frames)

/-- One iteration of the outer source loop: allocate the `(fileId,
masterclipId)` pair for a source not seen before (one shared counter,
post-incremented once per new source), then fold the cut loop over the
enumerated cut list. -/
def processSource (itc : Bool) (tt bg dir : String)
    (st : GenState) (sc : String × List Cut) : Except String GenState :=
  let source_file := sc.1
  let cuts := sc.2
  let st1 : GenState :=
    if (dictGet st.source_file_ids source_file).isNone then
      { st with
        source_file_ids := st.source_file_ids ++ [(source_file, st.file_id_counter)],
        source_masterclip_ids := st.source_masterclip_ids ++ [(source_file, st.file_id_counter)],
        file_id_counter := st.file_id_counter + 1 }
    else st
  let current_file_id := (dictGet st1.source_file_ids source_file).getD 0
  let current_masterclip_id := (dictGet st1.source_masterclip_ids source_file).getD 0
  cuts.enum.foldlM (processCut itc tt bg dir source_file current_file_id current_masterclip_id cuts.length) st1

/-- The assembly part of `generate_xml`: the intro-title block followed by
the source/cut loops. `script_dir` stands for
`os.path.dirname(os.path.abspath(__file__))`. -/
def assemble (script_dir : String) (sources : List (String × List Cut))
    (include_title_cards title_before_first : Bool)
    (bg_color title_text title_card_images_dir : String) : Except String GenState :=
  let full_dir := joinPath script_dir title_card_images_dir
  let st0 := initState
  let st1 := if include_title_cards ∧ title_before_first
    then introStep full_dir bg_color title_text st0 else st0
  sources.foldlM (processSource include_title_cards title_text bg_color full_dir) st1

/-! ## The string renderer (the f-string templates of the source) -/

/-- Python `os.path.basename` for POSIX paths. -/
def basename (p : String) : String :=
  (pySplit ("/") p).getLastD p

/-- `create_title_card_xml` from the source. `title_text` is accepted but,
as in the source, never written into the document (only the image file name
and path appear). -/
def create_title_card_xml (title_text : String) (start_frame duration_frames : Int)
    (clip_id : Nat) (image_path : String) (abspath : String → String) : String :=
  "\n\t\t\t\t\t<clipitem id=\"clipitem-" ++ toString clip_id ++ "\">\n" ++
  "\t\t\t\t\t\t<masterclipid>masterclip-" ++ toString clip_id ++ "</masterclipid>\n" ++
  "\t\t\t\t\t\t<name>" ++ basename image_path ++ "</name>\n" ++
  "\t\t\t\t\t\t<enabled>TRUE</enabled>\n" ++
  "\t\t\t\t\t\t<duration>" ++ toString duration_frames ++ "</duration>\n" ++
  "\t\t\t\t\t\t<rate>\n\t\t\t\t\t\t\t<timebase>30</timebase>\n\t\t\t\t\t\t\t<ntsc>FALSE</ntsc>\n\t\t\t\t\t\t</rate>\n" ++
  "\t\t\t\t\t\t<start>" ++ toString start_frame ++ "</start>\n" ++
  "\t\t\t\t\t\t<end>" ++ toString (start_frame + duration_frames) ++ "</end>\n" ++
  "\t\t\t\t\t\t<in>0</in>\n" ++
  "\t\t\t\t\t\t<out>" ++ toString duration_frames ++ "</out>\n" ++
  "\t\t\t\t\t\t<alphatype>none</alphatype>\n" ++
  "\t\t\t\t\t\t<pixelaspectratio>square</pixelaspectratio>\n" ++
  "\t\t\t\t\t\t<anamorphic>FALSE</anamorphic>\n" ++
  "\t\t\t\t\t\t<file id=\"file-" ++ toString clip_id ++ "\">\n" ++
  "\t\t\t\t\t\t\t<name>" ++ basename image_path ++ "</name>\n" ++
  "\t\t\t\t\t\t\t<pathurl>file://localhost/" ++ abspath image_path ++ "</pathurl>\n" ++
  "\t\t\t\t\t\t\t<rate>\n\t\t\t\t\t\t\t\t<timebase>30</timebase>\n\t\t\t\t\t\t\t\t<ntsc>FALSE</ntsc>\n\t\t\t\t\t\t\t</rate>\n" ++
  "\t\t\t\t\t\t\t<duration>" ++ toString duration_frames ++ "</duration>\n" ++
  "\t\t\t\t\t\t\t<timecode>\n\t\t\t\t\t\t\t\t<rate>\n\t\t\t\t\t\t\t\t\t<timebase>30</timebase>\n\t\t\t\t\t\t\t\t\t<ntsc>FALSE</ntsc>\n\t\t\t\t\t\t\t\t</rate>\n\t\t\t\t\t\t\t\t<string>00:00:00:00</string>\n\t\t\t\t\t\t\t\t<frame>0</frame>\n\t\t\t\t\t\t\t\t<displayformat>NDF</displayformat>\n\t\t\t\t\t\t\t</timecode>\n" ++
  "\t\t\t\t\t\t\t<media>\n\t\t\t\t\t\t\t\t<video>\n\t\t\t\t\t\t\t\t\t<samplecharacteristics>\n\t\t\t\t\t\t\t\t\t\t<rate>\n\t\t\t\t\t\t\t\t\t\t\t<timebase>30</timebase>\n\t\t\t\t\t\t\t\t\t\t\t<ntsc>FALSE</ntsc>\n\t\t\t\t\t\t\t\t\t\t</rate>\n\t\t\t\t\t\t\t\t\t\t<width>1920</width>\n\t\t\t\t\t\t\t\t\t\t<height>1080</height>\n\t\t\t\t\t\t\t\t\t\t<anamorphic>FALSE</anamorphic>\n\t\t\t\t\t\t\t\t\t\t<pixelaspectratio>square</pixelaspectratio>\n\t\t\t\t\t\t\t\t\t\t<fielddominance>none</fielddominance>\n\t\t\t\t\t\t\t\t\t</samplecharacteristics>\n\t\t\t\t\t\t\t\t</video>\n\t\t\t\t\t\t\t</media>\n" ++
  "\t\t\t\t\t\t</file>\n\t\t\t\t\t</clipitem>"

/-- `create_transition_xml` from the source (`//` is Python floor division,
hence `Int.fdiv`). -/
def create_transition_xml (start_frame end_frame : Int) : String :=
  "\t\t\t\t\t<transitionitem>\n" ++
  "\t\t\t\t\t\t<start>" ++ toString start_frame ++ "</start>\n" ++
  "\t\t\t\t\t\t<end>" ++ toString end_frame ++ "</end>\n" ++
  "\t\t\t\t\t\t<alignment>center</alignment>\n" ++
  "\t\t\t\t\t\t<cutPointTicks>" ++ toString (Int.fdiv (start_frame * 254016000000) 30) ++ "</cutPointTicks>\n" ++
  "\t\t\t\t\t\t<rate>\n\t\t\t\t\t\t\t<timebase>30</timebase>\n\t\t\t\t\t\t\t<ntsc>FALSE</ntsc>\n\t\t\t\t\t\t</rate>\n" ++
  "\t\t\t\t\t\t<effect>\n\t\t\t\t\t\t\t<name>Cross Dissolve</name>\n\t\t\t\t\t\t\t<effectid>Cross Dissolve</effectid>\n\t\t\t\t\t\t\t<effectcategory>Dissolve</effectcategory>\n\t\t\t\t\t\t\t<effecttype>transition</effecttype>\n\t\t\t\t\t\t\t<mediatype>video</mediatype>\n\t\t\t\t\t\t\t<wipecode>0</wipecode>\n\t\t\t\t\t\t\t<wipeaccuracy>100</wipeaccuracy>\n\t\t\t\t\t\t\t<startratio>0</startratio>\n\t\t\t\t\t\t\t<endratio>1</endratio>\n\t\t\t\t\t\t\t<reverse>FALSE</reverse>\n\t\t\t\t\t\t</effect>\n\t\t\t\t\t</transitionitem>"

/-- The media-clip template text before the first `{source_file}`
interpolation (ends with the opening `<name>` tag). -/
def mc_head (clip_id masterclip_id : Nat) : String :=
  "\n\t\t\t\t\t<clipitem id=\"clipitem-" ++ toString clip_id ++ "\">\n" ++
  "\t\t\t\t\t\t<masterclipid>masterclip-" ++ toString masterclip_id ++ "</masterclipid>\n" ++
  "\t\t\t\t\t\t<name>"

/-- The media-clip template text between the two `{source_file}`
interpolations. -/
def mc_mid1 (start «end» inF outF : Int) (file_id : Nat) : String :=
  "</name>\n" ++
  "\t\t\t\t\t\t<enabled>TRUE</enabled>\n" ++
  "\t\t\t\t\t\t<duration>130554</duration>\n" ++
  "\t\t\t\t\t\t<rate>\n\t\t\t\t\t\t\t<timebase>30</timebase>\n\t\t\t\t\t\t\t<ntsc>FALSE</ntsc>\n\t\t\t\t\t\t</rate>\n" ++
  "\t\t\t\t\t\t<start>" ++ toString start ++ "</start>\n" ++
  "\t\t\t\t\t\t<end>" ++ toString «end» ++ "</end>\n" ++
  "\t\t\t\t\t\t<in>" ++ toString inF ++ "</in>\n" ++
  "\t\t\t\t\t\t<out>" ++ toString outF ++ "</out>\n" ++
  "\t\t\t\t\t\t<alphatype>none</alphatype>\n" ++
  "\t\t\t\t\t\t<pixelaspectratio>square</pixelaspectratio>\n" ++
  "\t\t\t\t\t\t<anamorphic>FALSE</anamorphic>\n" ++
  "\t\t\t\t\t\t<file id=\"file-" ++ toString file_id ++ "\">\n" ++
  "\t\t\t\t\t\t\t<name>"

/-- The media-clip template text between the second `{source_file}` and the
`{os.path.abspath(source_file)}` interpolation. -/
def mc_mid2 : String :=
  "</name>\n\t\t\t\t\t\t\t<pathurl>file://localhost/"

/-- The media-clip template text after the path interpolation: rate,
duration, timecode and media blocks, closing tags. -/
def mc_tail : String :=
  "</pathurl>\n" ++
  "\t\t\t\t\t\t\t<rate>\n\t\t\t\t\t\t\t\t<timebase>30</timebase>\n\t\t\t\t\t\t\t\t<ntsc>FALSE</ntsc>\n\t\t\t\t\t\t\t</rate>\n" ++
  "\t\t\t\t\t\t\t<duration>130554</duration>\n" ++
  "\t\t\t\t\t\t\t<timecode>\n\t\t\t\t\t\t\t\t<rate>\n\t\t\t\t\t\t\t\t\t<timebase>30</timebase>\n\t\t\t\t\t\t\t\t\t<ntsc>FALSE</ntsc>\n\t\t\t\t\t\t\t\t</rate>\n\t\t\t\t\t\t\t\t<string>00:00:00:00</string>\n\t\t\t\t\t\t\t\t<frame>0</frame>\n\t\t\t\t\t\t\t\t<displayformat>NDF</displayformat>\n\t\t\t\t\t\t\t</timecode>\n" ++
  "\t\t\t\t\t\t\t<media>\n\t\t\t\t\t\t\t\t<video>\n\t\t\t\t\t\t\t\t\t<samplecharacteristics>\n\t\t\t\t\t\t\t\t\t\t<rate>\n\t\t\t\t\t\t\t\t\t\t\t<timebase>30</timebase>\n\t\t\t\t\t\t\t\t\t\t\t<ntsc>FALSE</ntsc>\n\t\t\t\t\t\t\t\t\t\t</rate>\n\t\t\t\t\t\t\t\t\t\t<width>1920</width>\n\t\t\t\t\t\t\t\t\t\t<height>1080</height>\n\t\t\t\t\t\t\t\t\t\t<anamorphic>FALSE</anamorphic>\n\t\t\t\t\t\t\t\t\t\t<pixelaspectratio>square</pixelaspectratio>\n\t\t\t\t\t\t\t\t\t\t<fielddominance>none</fielddominance>\n\t\t\t\t\t\t\t\t\t</samplecharacteristics>\n\t\t\t\t\t\t\t\t</video>\n\t\t\t\t\t\t\t\t<audio>\n\t\t\t\t\t\t\t\t\t<samplecharacteristics>\n\t\t\t\t\t\t\t\t\t\t<depth>16</depth>\n\t\t\t\t\t\t\t\t\t\t<samplerate>44100</samplerate>\n\t\t\t\t\t\t\t\t\t</samplecharacteristics>\n\t\t\t\t\t\t\t\t\t<channelcount>2</channelcount>\n\t\t\t\t\t\t\t\t</audio>\n\t\t\t\t\t\t\t</media>\n" ++
  "\t\t\t\t\t\t</file>\n\t\t\t\t\t</clipitem>"

/-- The inline media-clip f-string of `generate_xml` (lines 253-310 of the
source): each interpolated value goes in verbatim between the template
chunks above. -/
def media_clip_xml (abspath : String → String) (clip_id masterclip_id file_id : Nat)
    (source_file : String) (start «end» inF outF : Int) : String :=
  mc_head clip_id masterclip_id ++
    (source_file ++
      (mc_mid1 start «end» inF outF file_id ++
        (source_file ++ (mc_mid2 ++ (abspath source_file ++ mc_tail)))))

/-- The inline audio-clip f-strings of `generate_xml` (the second channel's
clipitem id carries a `-2` suffix and trackindex 2). -/
def audio_clip_xml (a : AElem) : String :=
  "\n\t\t\t\t\t<clipitem id=\"audio-clipitem-" ++ toString a.clip_id ++
    (if a.trackindex = 2 then "-2" else "") ++ "\">\n" ++
  "\t\t\t\t\t\t<masterclipid>masterclip-" ++ toString a.masterclip_id ++ "</masterclipid>\n" ++
  "\t\t\t\t\t\t<name>" ++ a.source_file ++ "</name>\n" ++
  "\t\t\t\t\t\t<enabled>TRUE</enabled>\n" ++
  "\t\t\t\t\t\t<duration>130554</duration>\n" ++
  "\t\t\t\t\t\t<rate>\n\t\t\t\t\t\t\t<timebase>30</timebase>\n\t\t\t\t\t\t\t<ntsc>FALSE</ntsc>\n\t\t\t\t\t\t</rate>\n" ++
  "\t\t\t\t\t\t<start>" ++ toString a.start ++ "</start>\n" ++
  "\t\t\t\t\t\t<end>" ++ toString a.«end» ++ "</end>\n" ++
  "\t\t\t\t\t\t<in>" ++ toString a.inF ++ "</in>\n" ++
  "\t\t\t\t\t\t<out>" ++ toString a.outF ++ "</out>\n" ++
  "\t\t\t\t\t\t<file id=\"file-" ++ toString a.file_id ++ "\"/>\n" ++
  "\t\t\t\t\t\t<sourcetrack>\n\t\t\t\t\t\t\t<mediatype>audio</mediatype>\n\t\t\t\t\t\t\t<trackindex>" ++ toString a.trackindex ++ "</trackindex>\n\t\t\t\t\t\t</sourcetrack>\n" ++
  "\t\t\t\t\t\t<channelcount>2</channelcount>\n\t\t\t\t\t</clipitem>"

/-- Render one video-track element with the template the source uses for it. -/
def renderVElem (abspath : String → String) : VElem → String
  | VElem.clip cid mid fid sf s e i o => media_clip_xml abspath cid mid fid sf s e i o
  | VElem.title cid txt s d ip => create_title_card_xml txt s d cid ip abspath
  | VElem.transition s e => create_transition_xml s e

/-- The `xml_content` wrapper before the sequence `<name>` element
(everything up to and including `</rate>\n\t\t`). -/
def xml_head1 : String :=
  "<?xml version=\"1.0\" encoding=\"UTF-8\"?>\n<!DOCTYPE xmeml>\n<xmeml version=\"4\">\n\t<sequence id=\"sequence-1\" explodedTracks=\"true\">\n\t\t<uuid>"

/-- The `xml_content` chunk between the sequence uuid and its duration. -/
def xml_head2 : String := "</uuid>\n\t\t<duration>"

/-- The `xml_content` chunk between the duration and the project name. -/
def xml_head3 : String :=
  "</duration>\n\t\t<rate>\n\t\t\t<timebase>30</timebase>\n\t\t\t<ntsc>FALSE</ntsc>\n\t\t</rate>\n\t\t<name>"

/-- The `xml_content` chunk between the project name and the joined video
clips: media/video format block with the fixed ProRes codec descriptor. -/
def xml_mid1 : String :=
  "</name>\n\t\t<media>\n\t\t\t<video>\n\t\t\t\t<format>\n\t\t\t\t\t<samplecharacteristics>\n\t\t\t\t\t\t<rate>\n\t\t\t\t\t\t\t<timebase>30</timebase>\n\t\t\t\t\t\t\t<ntsc>FALSE</ntsc>\n\t\t\t\t\t\t</rate>\n\t\t\t\t\t\t<codec>\n\t\t\t\t\t\t\t<name>Apple ProRes 422</name>\n\t\t\t\t\t\t\t<appspecificdata>\n\t\t\t\t\t\t\t\t<appname>Final Cut Pro</appname>\n\t\t\t\t\t\t\t\t<appmanufacturer>Apple Inc.</appmanufacturer>\n\t\t\t\t\t\t\t\t<appversion>7.0</appversion>\n\t\t\t\t\t\t\t\t<data>\n\t\t\t\t\t\t\t\t\t<qtcodec>\n\t\t\t\t\t\t\t\t\t\t<codecname>Apple ProRes 422</codecname>\n\t\t\t\t\t\t\t\t\t\t<codectypename>Apple ProRes 422</codectypename>\n\t\t\t\t\t\t\t\t\t\t<codectypecode>apcn</codectypecode>\n\t\t\t\t\t\t\t\t\t\t<codecvendorcode>appl</codecvendorcode>\n\t\t\t\t\t\t\t\t\t\t<spatialquality>1024</spatialquality>\n\t\t\t\t\t\t\t\t\t\t<temporalquality>0</temporalquality>\n\t\t\t\t\t\t\t\t\t\t<keyframerate>0</keyframerate>\n\t\t\t\t\t\t\t\t\t\t<datarate>0</datarate>\n\t\t\t\t\t\t\t\t\t</qtcodec>\n\t\t\t\t\t\t\t\t</data>\n\t\t\t\t\t\t\t</appspecificdata>\n\t\t\t\t\t\t</codec>\n\t\t\t\t\t\t<width>1920</width>\n\t\t\t\t\t\t<height>1080</height>\n\t\t\t\t\t\t<anamorphic>FALSE</anamorphic>\n\t\t\t\t\t\t<pixelaspectratio>square</pixelaspectratio>\n\t\t\t\t\t\t<fielddominance>none</fielddominance>\n\t\t\t\t\t\t<colordepth>24</colordepth>\n\t\t\t\t\t</samplecharacteristics>\n\t\t\t\t</format>\n\t\t\t\t<track>\n"

/-- The `xml_content` chunk between the video track contents and the joined
audio clips. -/
def xml_mid2 : String :=
  "\n\t\t\t\t\t<enabled>TRUE</enabled>\n\t\t\t\t\t<locked>FALSE</locked>\n\t\t\t\t</track>\n\t\t\t</video>\n\t\t\t<audio>\n\t\t\t\t<format>\n\t\t\t\t\t<samplecharacteristics>\n\t\t\t\t\t\t<depth>16</depth>\n\t\t\t\t\t\t<samplerate>44100</samplerate>\n\t\t\t\t\t</samplecharacteristics>\n\t\t\t\t</format>\n\t\t\t\t<track>\n"

/-- The `xml_content` chunk after the audio track contents. -/
def xml_tail : String :=
  "\n\t\t\t\t\t<enabled>TRUE</enabled>\n\t\t\t\t\t<locked>FALSE</locked>\n\t\t\t\t</track>\n\t\t\t</audio>\n\t\t</media>\n\t\t<timecode>\n\t\t\t<rate>\n\t\t\t\t<timebase>30</timebase>\n\t\t\t\t<ntsc>FALSE</ntsc>\n\t\t\t</rate>\n\t\t\t<string>00:00:00:00</string>\n\t\t\t<frame>0</frame>\n\t\t\t<displayformat>NDF</displayformat>\n\t\t</timecode>\n\t</sequence>\n</xmeml>"

/-- The final `xml_content` f-string of `generate_xml`: every interpolated
value is embedded verbatim, with no escaping of markup characters. The
association of the concatenation places `filename` in evidence. -/
def xml_content (sequence_uuid filename : String) (total_frames : Int)
    (video_clips audio_clips : List String) : String :=
  (xml_head1 ++ sequence_uuid ++ xml_head2 ++ toString total_frames ++ xml_head3) ++
    (filename ++
      (xml_mid1 ++ pyJoin ("\n") video_clips ++ xml_mid2 ++ pyJoin ("\n") audio_clips ++ xml_tail))

/-- `generate_xml` from the source: assemble, then render. The unused
`project_uuid` of the source is omitted; `sequence_uuid` and `abspath`
stand for the two environment dependencies (UUID generation and
`os.path.abspath`). -/
def generate_xml (abspath : String → String) (script_dir sequence_uuid : String)
    (filename : String) (sources : List (String × List Cut))
    (include_title_cards title_before_first : Bool)
    (bg_color title_text title_card_images_dir : String) : Except String String :=
  (assemble script_dir sources include_title_cards title_before_first bg_color title_text
      title_card_images_dir).map
    (fun st => xml_content sequence_uuid filename st.current_start
      (st.video_clips.map (renderVElem abspath)) (st.audio_clips.map audio_clip_xml))

/-! ## Specification-side definitions -/

/-- The kind of a video-track element. -/
inductive Tag where
  | clip
  | title
  | transition
deriving DecidableEq, Repr

/-- Forget everything about a video element except its kind. -/
def tagOf : VElem → Tag
  | VElem.clip _ _ _ _ _ _ _ _ => Tag.clip
  | VElem.title _ _ _ _ _ => Tag.title
  | VElem.transition _ _ => Tag.transition

/-- The element kinds emitted for cut number `i` of a source with `n` cuts:
the media clip, followed by transition/title/transition exactly when title
cards are on and the cut is not the last of its source. -/
def cutBlock (itc : Bool) (n i : Nat) : List Tag :=
  if itc ∧ i + 1 < n then
    [Tag.clip, Tag.transition, Tag.title, Tag.transition]
  else
    [Tag.clip]

/-- Element kinds for `len` consecutive cuts starting at index `k` of a
source with `n` cuts. -/
def cutTagsFrom (itc : Bool) (n k : Nat) : Nat → List Tag
  | 0 => []
  | len + 1 => cutBlock itc n k ++ cutTagsFrom itc n (k + 1) len

/-- Element kinds for a whole source of `n` cuts with title cards enabled. -/
def cutTags (n : Nat) : List Tag :=
  cutTagsFrom true n 0 n

/-- Modelled from the spec: the duration in frames contributed by a list of
cut records (sum of `frames(end) - frames(start)`). -/
def cutsDurationSpec : List Cut → Except String Int
  | [] => Except.ok 0
  | c :: l => do
    let s ← timecode_to_frames c.start 30
    let e ← timecode_to_frames c.«end» 30
    let rest ← cutsDurationSpec l
    return (e - s) + rest

/-- Modelled from the spec: how many inter-cut title cards a source with
`n` cuts receives (one per cut except the last, none with title cards off). -/
def titleCardCount (itc : Bool) (n : Nat) : Nat :=
  if itc then n - 1 else 0

/-- Modelled from the spec: total duration contributed by the sources—clip
durations plus `title_duration` per inter-cut title card. -/
def sourcesDurationSpec (itc : Bool) : List (String × List Cut) → Except String Int
  | [] => Except.ok 0
  | sc :: rest => do
    let d ← cutsDurationSpec sc.2
    let r ← sourcesDurationSpec itc rest
    return d + title_duration * (titleCardCount itc sc.2.length : Int) + r

/-- Modelled from the spec: the declared sequence duration—the intro title
(when emitted) plus all source contributions; transitions contribute
nothing. -/
def sequenceDurationSpec (itc tbf : Bool) (sources : List (String × List Cut)) :
    Except String Int := do
  let r ← sourcesDurationSpec itc sources
  return (if itc ∧ tbf then title_duration else 0) + r

/-- Every transition/title/transition triple of adjacent video elements is
centred on the title's boundaries: the first transition straddles the
title's start, the second its end (start plus `title_duration`). -/
def flankOK (l : List VElem) : Prop :=
  ∀ j s1 e1 cid txt ts td ip s2 e2,
    l.get? j = some (VElem.transition s1 e1) →
    l.get? (j + 1) = some (VElem.title cid txt ts td ip) →
    l.get? (j + 2) = some (VElem.transition s2 e2) →
    s1 = ts - transition_duration / 2 ∧ e1 = ts + transition_duration / 2 ∧
      td = title_duration ∧
      s2 = ts + title_duration - transition_duration / 2 ∧
      e2 = ts + title_duration + transition_duration / 2

/-- The identifier table built by allocating counter values `c, c+1, ...`
to the listed source names in order. -/
def idAssignFrom (c : Nat) : List String → List (String × Nat)
  | [] => []
  | a :: l => (a, c) :: idAssignFrom (c + 1) l

/-- Invariant of the identifier allocator during assembly: the two id maps
agree and list the distinct source names seen so far with counter values
`1, 2, ...`; the shared counter sits one past the last allocation; and every
emitted media clip carries the pair the table assigns to its source. -/
structure IdInv (names : List String) (st : GenState) : Prop where
  fids : st.source_file_ids = idAssignFrom 1 names
  mids : st.source_masterclip_ids = idAssignFrom 1 names
  ctr : st.file_id_counter = 1 + names.length
  nd : names.Nodup
  clips : ∀ e ∈ st.video_clips, ∀ cid m f s a b i o,
    e = VElem.clip cid m f s a b i o → m = f ∧ (s, f) ∈ idAssignFrom 1 names

/-! ## Helper lemmas -/

theorem exceptBind_ok_elim {ε α β : Type} {m : Except ε α} {g : α → Except ε β} {b : β}
    (h : (m >>= g) = Except.ok b) : ∃ a, m = Except.ok a ∧ g a = Except.ok b := by
  cases m with
  | error e => exact Except.noConfusion h
  | ok a => exact ⟨a, rfl, h⟩

/-- Closed form of one cut-loop iteration. -/
theorem processCutOk_eq (itc : Bool) (tt dir sf : String) (fid mid n : Nat)
    (st : GenState) (i : Nat) (cut : Cut) (sF eF : Int) :
    processCutOk itc tt dir sf fid mid n st i cut sF eF =
      { video_clips := st.video_clips ++
          ([VElem.clip st.clip_id_counter mid fid sf st.current_start
              (st.current_start + (eF - sF)) sF eF] ++
            (if itc ∧ i < n - 1 then
              [VElem.transition (st.current_start + (eF - sF) - transition_duration / 2)
                  (st.current_start + (eF - sF) + transition_duration / 2),
               VElem.title (st.clip_id_counter + 1) (if tt = "" then cut.label else tt)
                  (st.current_start + (eF - sF)) title_duration
                  (joinPath dir ("title_card_" ++ toString (st.clip_id_counter + 1) ++ ".png")),
               VElem.transition (st.current_start + (eF - sF) + title_duration - transition_duration / 2)
                  (st.current_start + (eF - sF) + title_duration + transition_duration / 2)]
            else [])),
        audio_clips := st.audio_clips ++
          [{ clip_id := st.clip_id_counter, masterclip_id := mid, file_id := fid,
             source_file := sf, start := st.current_start,
             «end» := st.current_start + (eF - sF), inF := sF, outF := eF, trackindex := 1 },
           { clip_id := st.clip_id_counter, masterclip_id := mid, file_id := fid,
             source_file := sf, start := st.current_start,
             «end» := st.current_start + (eF - sF), inF := sF, outF := eF, trackindex := 2 }],
        current_start := st.current_start + (eF - sF) +
          (if itc ∧ i < n - 1 then title_duration else 0),
        clip_id_counter := st.clip_id_counter + (if itc ∧ i < n - 1 then 2 else 1),
        source_file_ids := st.source_file_ids,
        source_masterclip_ids := st.source_masterclip_ids,
        file_id_counter := st.file_id_counter } := by
  by_cases h : itc ∧ i < n - 1 <;>
    simp [processCutOk, h, List.append_assoc]

theorem processCut_ok_elim (itc : Bool) (tt bg dir sf : String) (fid mid n : Nat)
    (st : GenState) (ic : Nat × Cut) (st' : GenState)
    (h : processCut itc tt bg dir sf fid mid n st ic = Except.ok st') :
    ∃ sF eF, timecode_to_frames ic.2.start 30 = Except.ok sF ∧
      timecode_to_frames ic.2.«end» 30 = Except.ok eF ∧
      st' = processCutOk itc tt dir sf fid mid n st ic.1 ic.2 sF eF := by
  unfold processCut at h
  rcases h1 : timecode_to_frames ic.2.start 30 with e | sF <;> rw [h1] at h
  · cases h
  rcases h2 : timecode_to_frames ic.2.«end» 30 with e | eF <;> rw [h2] at h
  · cases h
  injection h with h
  exact ⟨sF, eF, rfl, rfl, h.symm⟩

theorem flankOK_nil : flankOK [] := by
  intro j s1 e1 cid txt ts td ip s2 e2 h1 _ _
  rw [List.get?_nil] at h1
  cases h1

theorem flankOK_pair (cid : Nat) (txt : String) (s d : Int) (ip : String) (a b : Int) :
    flankOK [VElem.title cid txt s d ip, VElem.transition a b] := by
  intro j s1 e1 cid' txt' ts td ip' s2 e2 h1 h2 h3
  rcases j with _ | _ | j <;> simp [List.get?] at h1 h2 h3

theorem flankOK_single_clip (c : VElem) : flankOK [c] := by
  intro j s1 e1 cid txt ts td ip s2 e2 h1 h2 h3
  rcases j with _ | j <;> simp [List.get?] at h2 h3

theorem flankOK_append {l Δ : List VElem} (hl : flankOK l)
    (hhead : ∀ e, Δ.get? 0 = some e → tagOf e = Tag.clip)
    (hΔ : flankOK Δ) : flankOK (l ++ Δ) := by
  intro j s1 e1 cid txt ts td ip s2 e2 h1 h2 h3
  by_cases hcase : j + 2 < l.length
  · rw [List.get?_append (by omega)] at h1 h2 h3
    exact hl j s1 e1 cid txt ts td ip s2 e2 h1 h2 h3
  · by_cases hcase2 : l.length ≤ j
    · rw [List.get?_append_right (by omega)] at h1 h2 h3
      have e2eq : j + 1 - l.length = (j - l.length) + 1 := by omega
      have e3eq : j + 2 - l.length = (j - l.length) + 2 := by omega
      rw [e2eq] at h2
      rw [e3eq] at h3
      exact hΔ (j - l.length) s1 e1 cid txt ts td ip s2 e2 h1 h2 h3
    · rcases (by omega : l.length = j + 1 ∨ l.length = j + 2) with hlen | hlen
      · rw [List.get?_append_right (by omega)] at h2
        have h2' : Δ.get? 0 = some (VElem.title cid txt ts td ip) := by
          rw [← h2]
          congr 1
          omega
        have := hhead _ h2'
        simp [tagOf] at this
      · rw [List.get?_append_right (by omega)] at h3
        have h3' : Δ.get? 0 = some (VElem.transition s2 e2) := by
          rw [← h3]
          congr 1
          omega
        have := hhead _ h3'
        simp [tagOf] at this

theorem flankOK_block (cid : Nat) (mid fid : Nat) (sf : String) (a b i o : Int)
    (tid : Nat) (txt : String) (x : Int) (ip : String) :
    flankOK [VElem.clip cid mid fid sf a b i o,
      VElem.transition (x - transition_duration / 2) (x + transition_duration / 2),
      VElem.title tid txt x title_duration ip,
      VElem.transition (x + title_duration - transition_duration / 2)
        (x + title_duration + transition_duration / 2)] := by
  intro j s1 e1 cid' txt' ts td ip' s2 e2 h1 h2 h3
  rcases j with _ | _ | _ | _ | j <;> simp [List.get?] at h1 h2 h3
  obtain ⟨hs1, he1⟩ := h1
  obtain ⟨_, _, hts, htd, _⟩ := h2
  obtain ⟨hs2, he2⟩ := h3
  subst hs1 he1 hts htd hs2 he2
  exact ⟨rfl, rfl, rfl, rfl, rfl⟩

theorem foldCuts_main (itc : Bool) (tt bg dir sf : String) (fid mid n : Nat)
    (l : List Cut) :
    ∀ (k : Nat) (st st' : GenState),
    k + l.length = n →
    (List.enumFrom k l).foldlM (processCut itc tt bg dir sf fid mid n) st = Except.ok st' →
    ∃ Δ total,
      cutsDurationSpec l = Except.ok total ∧
      st'.video_clips = st.video_clips ++ Δ ∧
      Δ.map tagOf = cutTagsFrom itc n k l.length ∧
      st'.current_start = st.current_start + total +
        title_duration * (titleCardCount itc l.length : Int) ∧
      st'.source_file_ids = st.source_file_ids ∧
      st'.source_masterclip_ids = st.source_masterclip_ids ∧
      st'.file_id_counter = st.file_id_counter ∧
      (∀ e ∈ Δ, ∀ s en, e = VElem.transition s en → en - s = 2 * (transition_duration / 2)) ∧
      (∀ e ∈ Δ, ∀ cid m f s a b i o,
        e = VElem.clip cid m f s a b i o → m = mid ∧ f = fid ∧ s = sf) ∧
      (flankOK st.video_clips → flankOK st'.video_clips) := by
  induction l with
  | nil =>
    intro k st st' _ h
    simp only [List.enumFrom, List.foldlM] at h
    replace h : Except.ok st = Except.ok st' := h
    injection h with h
    subst h
    exact ⟨[], 0, rfl, (List.append_nil _).symm, rfl, by simp [titleCardCount], rfl, rfl, rfl,
      by simp, by simp, fun x => x⟩
  | cons c rest ih =>
    intro k st st' hk h
    simp only [List.length_cons] at hk
    rw [List.enumFrom, List.foldlM_cons] at h
    obtain ⟨st1, hstep, hrest⟩ := exceptBind_ok_elim h
    obtain ⟨sF, eF, hs, he, hst1⟩ :=
      processCut_ok_elim itc tt bg dir sf fid mid n st (k, c) st1 hstep
    obtain ⟨Δ2, total2, hdur2, hvid2, htags2, hcur2, hfi2, hmi2, hctr2, hspan2, hclip2, hflank2⟩ :=
      ih (k + 1) st1 st' (by omega) hrest
    rw [hst1, processCutOk_eq] at hvid2 hcur2 hfi2 hmi2 hctr2
    simp only at hvid2 hcur2 hfi2 hmi2 hctr2
    have hiff : (itc ∧ k + 1 < n) ↔ (itc ∧ k < n - 1) := by
      constructor <;> rintro ⟨h1, h2⟩ <;> exact ⟨h1, by omega⟩
    refine ⟨([VElem.clip st.clip_id_counter mid fid sf st.current_start
        (st.current_start + (eF - sF)) sF eF] ++
        (if itc ∧ k < n - 1 then
          [VElem.transition (st.current_start + (eF - sF) - transition_duration / 2)
              (st.current_start + (eF - sF) + transition_duration / 2),
           VElem.title (st.clip_id_counter + 1) (if tt = "" then c.label else tt)
              (st.current_start + (eF - sF)) title_duration
              (joinPath dir ("title_card_" ++ toString (st.clip_id_counter + 1) ++ ".png")),
           VElem.transition (st.current_start + (eF - sF) + title_duration - transition_duration / 2)
              (st.current_start + (eF - sF) + title_duration + transition_duration / 2)]
        else [])) ++ Δ2, (eF - sF) + total2, ?_, ?_, ?_, ?_, ?_, ?_, ?_, ?_, ?_, ?_⟩
    · simp only [cutsDurationSpec]
      have hs' : timecode_to_frames c.start 30 = Except.ok sF := hs
      have he' : timecode_to_frames c.«end» 30 = Except.ok eF := he
      rw [hs', he', hdur2]
      rfl
    · rw [hvid2, List.append_assoc]
    · rw [List.map_append, htags2]
      show _ = cutTagsFrom itc n k (rest.length + 1)
      rw [cutTagsFrom]
      congr 1
      by_cases hc : itc ∧ k < n - 1
      · rw [if_pos hc, cutBlock, if_pos (hiff.mpr hc)]
        simp [tagOf]
      · rw [if_neg hc, cutBlock, if_neg (fun hx => hc (hiff.mp hx))]
        simp [tagOf]
    · rw [hcur2]
      simp only [titleCardCount, List.length_cons, title_duration]
      by_cases hitc : itc = true
      · simp only [hitc, eq_self_iff_true, true_and, if_true]
        by_cases hlt : k < n - 1
        · rw [if_pos hlt]
          omega
        · rw [if_neg hlt]
          omega
      · rw [if_neg (fun hx => hitc hx.1), if_neg hitc, if_neg hitc]
        omega
    · exact hfi2
    · exact hmi2
    · exact hctr2
    · intro e he2 s en heq
      rcases List.mem_append.mp he2 with hmem | hmem
      · rcases List.mem_append.mp hmem with hmem1 | hmem1
        · simp only [List.mem_singleton] at hmem1
          rw [hmem1] at heq
          cases heq
        · by_cases hc : itc ∧ k < n - 1
          · rw [if_pos hc] at hmem1
            simp only [List.mem_cons, List.mem_singleton, List.not_mem_nil, or_false] at hmem1
            rcases hmem1 with h1 | h1 | h1 <;> rw [h1] at heq
            · injection heq with a b
              subst a
              subst b
              ring
            · cases heq
            · injection heq with a b
              subst a
              subst b
              ring
          · rw [if_neg hc] at hmem1
            simp at hmem1
      · exact hspan2 e hmem s en heq
    · intro e he2 cid m f s a b i o heq
      rcases List.mem_append.mp he2 with hmem | hmem
      · rcases List.mem_append.mp hmem with hmem1 | hmem1
        · simp only [List.mem_singleton] at hmem1
          have hcc := hmem1.symm.trans heq
          injection hcc with h1 h2 h3 h4
          exact ⟨h2.symm, h3.symm, h4.symm⟩
        · by_cases hc : itc ∧ k < n - 1
          · rw [if_pos hc] at hmem1
            simp only [List.mem_cons, List.mem_singleton, List.not_mem_nil, or_false] at hmem1
            rcases hmem1 with h1 | h1 | h1 <;> rw [h1] at heq <;> cases heq
          · rw [if_neg hc] at hmem1
            simp at hmem1
      · exact hclip2 e hmem cid m f s a b i o heq
    · intro hfl
      apply hflank2
      rw [hst1, processCutOk_eq]
      simp only
      by_cases hc : itc ∧ k < n - 1
      · rw [if_pos hc]
        refine flankOK_append hfl (fun e he2 => ?_) (flankOK_block _ _ _ _ _ _ _ _ _ _ _ _)
        · simp only [List.singleton_append, List.get?] at he2
          injection he2 with he2
          rw [← he2]
          rfl
      · rw [if_neg hc]
        rw [List.append_nil]
        refine flankOK_append hfl (fun e he2 => ?_) (flankOK_single_clip _)
        · simp only [List.get?] at he2
          injection he2 with he2
          rw [← he2]
          rfl

theorem dictGet_idAssignFrom_none {c : Nat} {l : List String} {k : String} :
    dictGet (idAssignFrom c l) k = none ↔ k ∉ l := by
  induction l generalizing c with
  | nil => simp [idAssignFrom, dictGet]
  | cons a t ih =>
    simp only [idAssignFrom, dictGet, List.mem_cons]
    by_cases hak : a = k
    · simp [hak]
    · simp only [if_neg hak]
      rw [ih]
      constructor
      · intro hnot hor
        rcases hor with h | h
        · exact hak h.symm
        · exact hnot h
      · intro hnot h
        exact hnot (Or.inr h)

theorem dictGet_mem {m : List (String × Nat)} {k : String} {v : Nat}
    (h : dictGet m k = some v) : (k, v) ∈ m := by
  induction m with
  | nil => cases h
  | cons p t ih =>
    obtain ⟨a, b⟩ := p
    simp only [dictGet] at h
    by_cases hp : a = k
    · rw [if_pos hp] at h
      injection h with h
      subst hp
      subst h
      exact List.mem_cons_self _ _
    · rw [if_neg hp] at h
      exact List.mem_cons_of_mem _ (ih h)

theorem dictGet_append_of_none {m m2 : List (String × Nat)} {k : String}
    (h : dictGet m k = none) : dictGet (m ++ m2) k = dictGet m2 k := by
  induction m with
  | nil => rfl
  | cons p t ih =>
    rw [dictGet] at h
    by_cases hp : p.1 = k
    · rw [if_pos hp] at h
      cases h
    · rw [List.cons_append, dictGet, if_neg hp]
      exact ih (by rw [if_neg hp] at h; exact h)

theorem idAssignFrom_append (c : Nat) (l : List String) (a : String) :
    idAssignFrom c (l ++ [a]) = idAssignFrom c l ++ [(a, c + l.length)] := by
  induction l generalizing c with
  | nil => simp [idAssignFrom]
  | cons b t ih =>
    have hc : c + 1 + t.length = c + (t.length + 1) := by omega
    calc idAssignFrom c ((b :: t) ++ [a])
        = (b, c) :: idAssignFrom (c + 1) (t ++ [a]) := rfl
      _ = (b, c) :: (idAssignFrom (c + 1) t ++ [(a, c + 1 + t.length)]) := by rw [ih]
      _ = idAssignFrom c (b :: t) ++ [(a, c + (t.length + 1))] := by rw [hc]; rfl

theorem idAssignFrom_mem_key {c : Nat} {l : List String} {k : String} {v : Nat}
    (h : (k, v) ∈ idAssignFrom c l) : k ∈ l := by
  induction l generalizing c with
  | nil => cases h
  | cons a t ih =>
    rw [idAssignFrom] at h
    rcases List.mem_cons.mp h with h | h
    · injection h with h1 _
      exact h1 ▸ List.mem_cons_self _ _
    · exact List.mem_cons_of_mem _ (ih h)

theorem idAssignFrom_mem_val_ge {c : Nat} {l : List String} {k : String} {v : Nat}
    (h : (k, v) ∈ idAssignFrom c l) : c ≤ v := by
  induction l generalizing c with
  | nil => cases h
  | cons a t ih =>
    rw [idAssignFrom] at h
    rcases List.mem_cons.mp h with h | h
    · injection h with _ h2
      omega
    · have := ih h
      omega

theorem idAssignFrom_val_inj {c : Nat} {l : List String} {k1 k2 : String} {v : Nat}
    (h1 : (k1, v) ∈ idAssignFrom c l) (h2 : (k2, v) ∈ idAssignFrom c l) : k1 = k2 := by
  induction l generalizing c with
  | nil => cases h1
  | cons a t ih =>
    rw [idAssignFrom] at h1 h2
    rcases List.mem_cons.mp h1 with h1 | h1 <;> rcases List.mem_cons.mp h2 with h2 | h2
    · injection h1 with ha _
      injection h2 with hb _
      rw [ha, hb]
    · injection h1 with _ hv
      subst hv
      have := idAssignFrom_mem_val_ge h2
      omega
    · injection h2 with _ hv
      subst hv
      have := idAssignFrom_mem_val_ge h1
      omega
    · exact ih h1 h2

theorem idAssignFrom_key_unique {c : Nat} {l : List String} {k : String} {v1 v2 : Nat}
    (nd : l.Nodup) (h1 : (k, v1) ∈ idAssignFrom c l) (h2 : (k, v2) ∈ idAssignFrom c l) :
    v1 = v2 := by
  induction l generalizing c with
  | nil => cases h1
  | cons a t ih =>
    rw [idAssignFrom] at h1 h2
    rcases List.mem_cons.mp h1 with h1 | h1 <;> rcases List.mem_cons.mp h2 with h2 | h2
    · injection h1 with _ ha
      injection h2 with _ hb
      rw [ha, hb]
    · injection h1 with ha _
      have := idAssignFrom_mem_key h2
      rw [ha] at this
      exact absurd this (List.nodup_cons.mp nd).1
    · injection h2 with ha _
      have := idAssignFrom_mem_key h1
      rw [ha] at this
      exact absurd this (List.nodup_cons.mp nd).1
    · exact ih (List.nodup_cons.mp nd).2 h1 h2

theorem processSource_step (itc : Bool) (tt bg dir sf : String) (cuts : List Cut)
    (st st1 : GenState) (names : List String) (inv : IdInv names st)
    (h : processSource itc tt bg dir st (sf, cuts) = Except.ok st1) :
    ∃ stA names1 idv,
      (List.enumFrom 0 cuts).foldlM
        (processCut itc tt bg dir sf idv idv cuts.length) stA = Except.ok st1 ∧
      stA.video_clips = st.video_clips ∧
      stA.current_start = st.current_start ∧
      IdInv names1 stA ∧
      names1.toFinset = insert sf names.toFinset ∧
      (sf, idv) ∈ idAssignFrom 1 names1 := by
  rcases hlook : dictGet st.source_file_ids sf with _ | v
  · -- new source: allocate
    have hlook' : dictGet (idAssignFrom 1 names) sf = none := by
      rw [← inv.fids]
      exact hlook
    have hnot : sf ∉ names := dictGet_idAssignFrom_none.mp hlook'
    simp only [processSource, hlook, Option.isNone_none, if_true] at h
    have h1 : dictGet (st.source_file_ids ++ [(sf, st.file_id_counter)]) sf =
        some st.file_id_counter := by
      rw [inv.fids, dictGet_append_of_none hlook']
      simp [dictGet]
    have h2 : dictGet (st.source_masterclip_ids ++ [(sf, st.file_id_counter)]) sf =
        some st.file_id_counter := by
      rw [inv.mids, dictGet_append_of_none hlook']
      simp [dictGet]
    rw [h1, h2] at h
    simp only [Option.getD_some] at h
    have htable : idAssignFrom 1 (names ++ [sf]) =
        idAssignFrom 1 names ++ [(sf, st.file_id_counter)] := by
      rw [idAssignFrom_append, inv.ctr]
    refine ⟨_, names ++ [sf], st.file_id_counter, h, rfl, rfl, ?_, ?_, ?_⟩
    · constructor
      · show st.source_file_ids ++ [(sf, st.file_id_counter)] = _
        rw [htable, inv.fids]
      · show st.source_masterclip_ids ++ [(sf, st.file_id_counter)] = _
        rw [htable, inv.mids]
      · show st.file_id_counter + 1 = 1 + (names ++ [sf]).length
        rw [inv.ctr, List.length_append, List.length_singleton]
        omega
      · rw [List.nodup_append]
        exact ⟨inv.nd, List.nodup_singleton sf,
          fun x hx hx2 => hnot ((List.mem_singleton.mp hx2) ▸ hx)⟩
      · intro e he cid m f s a b i o heq
        obtain ⟨hmf, hmem⟩ := inv.clips e he cid m f s a b i o heq
        exact ⟨hmf, by rw [htable]; exact List.mem_append_left _ hmem⟩
    · rw [List.toFinset_append]
      ext x
      simp [or_comm]
    · rw [htable]
      refine List.mem_append_right _ ?_
      rw [inv.ctr]
      exact List.mem_singleton.mpr rfl
  · -- existing source: reuse
    have hmemtbl : (sf, v) ∈ idAssignFrom 1 names := by
      rw [← inv.fids]
      exact dictGet_mem hlook
    have hinnames : sf ∈ names := idAssignFrom_mem_key hmemtbl
    have hmid : dictGet st.source_masterclip_ids sf = some v := by
      rw [inv.mids, ← inv.fids]
      exact hlook
    simp only [processSource, hlook, Option.isNone_some, if_false, Bool.false_eq_true] at h
    rw [hmid] at h
    simp only [Option.getD_some] at h
    exact ⟨st, names, v, h, rfl, rfl, inv, by
      rw [Finset.insert_eq_self.mpr (List.mem_toFinset.mpr hinnames)], hmemtbl⟩

theorem foldSources_main (itc : Bool) (tt bg dir : String) (S : List (String × List Cut)) :
    ∀ (st st' : GenState) (names : List String),
    IdInv names st →
    S.foldlM (processSource itc tt bg dir) st = Except.ok st' →
    ∃ Δ total names',
      sourcesDurationSpec itc S = Except.ok total ∧
      st'.video_clips = st.video_clips ++ Δ ∧
      Δ.map tagOf = (S.map (fun sc => cutTagsFrom itc sc.2.length 0 sc.2.length)).join ∧
      st'.current_start = st.current_start + total ∧
      (∀ e ∈ Δ, ∀ s en, e = VElem.transition s en → en - s = 2 * (transition_duration / 2)) ∧
      (flankOK st.video_clips → flankOK st'.video_clips) ∧
      IdInv names' st' ∧
      names'.toFinset = names.toFinset ∪ (S.map Prod.fst).toFinset := by
  induction S with
  | nil =>
    intro st st' names inv h
    simp only [List.foldlM] at h
    replace h : Except.ok st = Except.ok st' := h
    injection h with h
    subst h
    exact ⟨[], 0, names, rfl, (List.append_nil _).symm, rfl, by ring, by simp, fun x => x,
      inv, by simp⟩
  | cons sc restS ih =>
    obtain ⟨sf, cuts⟩ := sc
    intro st st' names inv h
    rw [List.foldlM_cons] at h
    obtain ⟨st1, hstep, hrest⟩ := exceptBind_ok_elim h
    obtain ⟨stA, names1, idv, hfold, hvidA, hcurA, invA, hfinsA, hmemA⟩ :=
      processSource_step itc tt bg dir sf cuts st st1 names inv hstep
    obtain ⟨Δ1, total1, hdur1, hvid1, htags1, hcur1, hfi1, hmi1, hctr1, hspan1, hclip1, hflank1⟩ :=
      foldCuts_main itc tt bg dir sf idv idv cuts.length cuts 0 stA st1 (by omega) hfold
    have inv1 : IdInv names1 st1 := by
      constructor
      · rw [hfi1, invA.fids]
      · rw [hmi1, invA.mids]
      · rw [hctr1, invA.ctr]
      · exact invA.nd
      · intro e he cid m f s a b i o heq
        rw [hvid1] at he
        rcases List.mem_append.mp he with hmem | hmem
        · exact invA.clips e hmem cid m f s a b i o heq
        · obtain ⟨hm, hf, hsrc⟩ := hclip1 e hmem cid m f s a b i o heq
          refine ⟨by rw [hm, hf], ?_⟩
          rw [hf, hsrc]
          exact hmemA
    obtain ⟨Δ2, total2, names2, hdur2, hvid2, htags2, hcur2, hspan2, hflank2, inv', hfins'⟩ :=
      ih st1 st' names1 inv1 hrest
    refine ⟨Δ1 ++ Δ2, total1 + title_duration * (titleCardCount itc cuts.length : Int) + total2,
      names2, ?_, ?_, ?_, ?_, ?_, ?_, inv', ?_⟩
    · simp only [sourcesDurationSpec, hdur1, hdur2]
      rfl
    · rw [hvid2, hvid1, hvidA, List.append_assoc]
    · rw [List.map_append, htags1, htags2]
      simp only [List.map_cons, List.flatten_cons]
    · rw [hcur2, hcur1, hcurA]
      ring
    · intro e he s en heq
      rcases List.mem_append.mp he with hmem | hmem
      · exact hspan1 e hmem s en heq
      · exact hspan2 e hmem s en heq
    · intro hfl
      apply hflank2
      apply hflank1
      rw [hvidA]
      exact hfl
    · rw [hfins', hfinsA]
      ext x
      simp [List.mem_toFinset]

/-- The intro-title block of `assemble`, evaluated on the initial state. -/
theorem introStep_initState (full_dir bg tt : String) :
    introStep full_dir bg tt initState =
      { video_clips := [VElem.title 4 (if tt = "" then "Intro Title" else tt) 0 title_duration
            (joinPath full_dir ("title_card_4.png")),
          VElem.transition (title_duration - transition_duration / 2)
            (title_duration + transition_duration / 2)],
        audio_clips := [], current_start := title_duration, clip_id_counter := 5,
        source_file_ids := [], source_masterclip_ids := [], file_id_counter := 1 } := by
  simp only [introStep, initState]
  norm_num
  rfl

theorem IdInv_initState : IdInv [] initState := by
  constructor
  · rfl
  · rfl
  · rfl
  · exact List.nodup_nil
  · intro e he
    simp [initState] at he

theorem IdInv_introStep (full_dir bg tt : String) :
    IdInv [] (introStep full_dir bg tt initState) := by
  rw [introStep_initState]
  constructor
  · rfl
  · rfl
  · rfl
  · exact List.nodup_nil
  · intro e he cid m f s a b i o heq
    rcases List.mem_cons.mp he with h1 | h1
    · rw [h1] at heq
      cases heq
    · rw [List.mem_singleton.mp h1] at heq
      cases heq

theorem assemble_main (sd : String) (sources : List (String × List Cut))
    (itc tbf : Bool) (bg tt dir : String) (st' : GenState)
    (h : assemble sd sources itc tbf bg tt dir = Except.ok st') :
    ∃ Δ total names,
      sourcesDurationSpec itc sources = Except.ok total ∧
      st'.video_clips = (if itc ∧ tbf then
          [VElem.title 4 (if tt = "" then "Intro Title" else tt) 0 title_duration
             (joinPath (joinPath sd dir) ("title_card_4.png")),
           VElem.transition (title_duration - transition_duration / 2)
             (title_duration + transition_duration / 2)]
        else []) ++ Δ ∧
      Δ.map tagOf = (sources.map (fun sc => cutTagsFrom itc sc.2.length 0 sc.2.length)).join ∧
      st'.current_start = (if itc ∧ tbf then title_duration else 0) + total ∧
      (∀ s en, VElem.transition s en ∈ st'.video_clips → en - s = 2 * (transition_duration / 2)) ∧
      flankOK st'.video_clips ∧
      IdInv names st' ∧
      names.toFinset = (sources.map Prod.fst).toFinset := by
  simp only [assemble] at h
  by_cases hin : itc ∧ tbf
  · rw [if_pos hin] at h
    obtain ⟨Δ, total, names, hdur, hvid, htags, hcur, hspan, hflank, inv, hfins⟩ :=
      foldSources_main itc tt bg (joinPath sd dir) sources
        (introStep (joinPath sd dir) bg tt initState) st' [] (IdInv_introStep _ _ _) h
    rw [introStep_initState] at hvid hcur hflank
    simp only at hvid hcur
    refine ⟨Δ, total, names, hdur, by rw [if_pos hin]; exact hvid, htags,
      by rw [if_pos hin]; rw [hcur], ?_, ?_, inv, by simpa using hfins⟩
    · intro s en hmem
      rw [hvid] at hmem
      rcases List.mem_append.mp hmem with h1 | h1
      · rcases List.mem_cons.mp h1 with h2 | h2
        · cases h2
        · have h3 := List.mem_singleton.mp h2
          injection h3 with hs he2
          subst hs
          subst he2
          ring
      · exact hspan _ h1 s en rfl
    · apply hflank
      exact flankOK_pair _ _ _ _ _ _ _
  · rw [if_neg hin] at h
    obtain ⟨Δ, total, names, hdur, hvid, htags, hcur, hspan, hflank, inv, hfins⟩ :=
      foldSources_main itc tt bg (joinPath sd dir) sources initState st' []
        IdInv_initState h
    simp only [initState] at hvid hcur
    refine ⟨Δ, total, names, hdur, by rw [if_neg hin]; simpa using hvid, htags,
      by rw [if_neg hin]; rw [hcur], ?_, ?_, inv, by simpa using hfins⟩
    · intro s en hmem
      rw [hvid] at hmem
      rcases List.mem_append.mp hmem with h1 | h1
      · simp at h1
      · exact hspan _ h1 s en rfl
    · apply hflank
      exact flankOK_nil

/-- C5: for every timecode string of 3 or 4 colon-separated integer fields
the Timecode Converter returns `((hours*3600 + minutes*60 + seconds) * rate)
+ frames`, a 3-field input being read as `HH:MM:SS` with `frames = 0`. The
two concrete values of the claim are checked in the witness. -/
theorem timecode_to_frames_formula (t : String) (fps : Int) (h m s f : Int)
    (hp : (pySplit (":") t).map pyInt = [some h, some m, some s, some f] ∨
          ((pySplit (":") t).map pyInt = [some h, some m, some s] ∧ f = 0)) :
    timecode_to_frames t fps = Except.ok ((h * 3600 + m * 60 + s) * fps + f) := by
  rcases hp with hp | ⟨hp, hf⟩
  · rcases hq : pySplit (":") t with _ | ⟨a, _ | ⟨b, _ | ⟨c, _ | ⟨d, _ | ⟨e, r⟩⟩⟩⟩⟩ <;>
      rw [hq] at hp <;> simp at hp
    obtain ⟨h1, h2, h3, h4⟩ := hp
    simp only [timecode_to_frames, hq, h1, h2, h3, h4]
  · rcases hq : pySplit (":") t with _ | ⟨a, _ | ⟨b, _ | ⟨c, _ | ⟨d, r⟩⟩⟩⟩ <;>
      rw [hq] at hp <;> simp at hp
    subst hf
    obtain ⟨h1, h2, h3⟩ := hp
    simp only [timecode_to_frames, hq, h1, h2, h3]

theorem timecode_to_frames_formula_witness :
    timecode_to_frames ("00:00:05:00") 30 = Except.ok 150 ∧
    timecode_to_frames ("00:01:00") 30 = Except.ok 1800 := by
  constructor
  · have h := timecode_to_frames_formula ("00:00:05:00") 30 0 0 5 0 (Or.inl (by decide))
    simpa using h
  · have h := timecode_to_frames_formula ("00:01:00") 30 0 1 0 0 (Or.inr ⟨by decide, rfl⟩)
    simpa using h

/-- C6 counterexample: with an active source, a line containing both `-`
and `,` whose pre-comma text carries two dashes makes the parser raise a
`ValueError` (the tuple unpacking of `split("-")` fails); it is neither
split once on the first `-` into a CutRecord nor silently ignored. -/
theorem cut_line_unpack_counterexample :
    parse_cut_table ("SOURCE: s\n0:0:1-0:0:2-0:0:3,label") =
      Except.error
        ("ValueError: timecode range does not unpack into two values: 0:0:1-0:0:2-0:0:3,label") :=
  rfl

/-- C6 amended: a non-directive line yields a CutRecord exactly when a
current source is truthy, the line contains `-` and `,`, AND the text
before the first `,` splits on `-` into exactly two pieces (then both
pieces and the post-comma label are trimmed); with the containment
condition met but a piece count other than two the parser raises; in
every other case the line is silently ignored. -/
theorem cut_line_trichotomy (f : Option String) (sources : List (String × List Cut))
    (cs : Option String) (line : String)
    (h1 : pyStartsWith ("FILENAME:") line = false)
    (h2 : pyStartsWith ("SOURCE:") line = false) :
    ((pyTruthy cs && pyContains '-' line && pyContains ',' line) = true →
      (((pySplit ("-") ((pySplit (",") line).headD (""))).length = 2 →
        parseLine (f, sources, cs) line =
          Except.ok (f, dictAppend sources (cs.getD (""))
            { start := pyStrip ((pySplit ("-") ((pySplit (",") line).headD (""))).getD 0 ("")),
              «end» := pyStrip ((pySplit ("-") ((pySplit (",") line).headD (""))).getD 1 ("")),
              label := pyStrip (pyJoin (",") ((pySplit (",") line).tail)) }, cs)) ∧
      ((pySplit ("-") ((pySplit (",") line).headD (""))).length ≠ 2 →
        ∃ e, parseLine (f, sources, cs) line = Except.error e))) ∧
    ((pyTruthy cs && pyContains '-' line && pyContains ',' line) = false →
      parseLine (f, sources, cs) line = Except.ok (f, sources, cs)) := by
  constructor
  · intro hc
    constructor
    · intro hlen
      rcases hq : pySplit ("-") ((pySplit (",") line).headD ("")) with _ | ⟨a, _ | ⟨b, _ | r⟩⟩ <;>
        rw [hq] at hlen <;> simp at hlen
      simp only [parseLine, h1, h2, hc, Bool.false_eq_true, if_false, if_true, hq]
      simp [hq]
    · intro hlen
      refine ⟨("ValueError: timecode range does not unpack into two values: " ++ line), ?_⟩
      rcases hq : pySplit ("-") ((pySplit (",") line).headD ("")) with _ | ⟨a, _ | ⟨b, _ | r⟩⟩
      · simp only [parseLine, h1, h2, hc, Bool.false_eq_true, if_false, if_true, hq]
      · simp only [parseLine, h1, h2, hc, Bool.false_eq_true, if_false, if_true, hq]
      · rw [hq] at hlen
        simp at hlen
      · simp only [parseLine, h1, h2, hc, Bool.false_eq_true, if_false, if_true, hq]
  · intro hc
    simp [parseLine, h1, h2, hc]

theorem cut_line_trichotomy_witness :
    parseLine (none, [(("s"), [])], some ("s")) ("0:0:1-0:0:2, lab ") =
      Except.ok (none,
        [(("s"), [{ start := ("0:0:1"), «end» := ("0:0:2"), label := ("lab") }])],
        some ("s")) := by
  have h := ((cut_line_trichotomy none [(("s"), [])] (some ("s")) ("0:0:1-0:0:2, lab ")
      (by decide) (by decide)).1 (by decide)).1 (by decide)
  exact h.trans (by rfl)

/-- C1 counterexample: a cut whose converted `out` (150) is below its `in`
(300) does not abort assembly; the state is returned successfully and a
MediaClip with non-positive duration (`end = -150 < 0 = start`) is
emitted. -/
theorem degenerate_range_counterexample :
    assemble ("S") [(("v.mp4"),
        [{ start := ("00:00:10"), «end» := ("00:00:05"), label := ("r") }])]
        false false ("#E96502") ("") ("title_cards") =
      Except.ok
        { video_clips := [VElem.clip 4 1 1 ("v.mp4") 0 (-150) 300 150],
          audio_clips := [⟨4, 1, 1, ("v.mp4"), 0, -150, 300, 150, 1⟩,
            ⟨4, 1, 1, ("v.mp4"), 0, -150, 300, 150, 2⟩],
          current_start := -150, clip_id_counter := 5,
          source_file_ids := [(("v.mp4"), 1)], source_masterclip_ids := [(("v.mp4"), 1)],
          file_id_counter := 2 } ∧
    ((-150 : Int) ≤ 0) := ⟨rfl, by norm_num⟩

/-- C1 amended: when both timecodes convert and `out <= in`, the MediaClip
emitter does NOT fail: the cut-loop body succeeds, emits the clip with its
range unclamped (`in`/`out` kept, `end = start + (out - in) <= start`), and
moves the cursor backwards or keeps it in place. -/
theorem degenerate_range_emitted_unclamped (itc : Bool) (tt bg dir sf : String)
    (fid mid n : Nat) (st : GenState) (i : Nat) (cut : Cut) (inF outF : Int)
    (hs : timecode_to_frames cut.start 30 = Except.ok inF)
    (he : timecode_to_frames cut.«end» 30 = Except.ok outF)
    (hle : outF ≤ inF) :
    processCut itc tt bg dir sf fid mid n st (i, cut) =
      Except.ok (processCutOk itc tt dir sf fid mid n st i cut inF outF) ∧
    VElem.clip st.clip_id_counter mid fid sf st.current_start
        (st.current_start + (outF - inF)) inF outF ∈
      (processCutOk itc tt dir sf fid mid n st i cut inF outF).video_clips ∧
    st.current_start + (outF - inF) ≤ st.current_start := by
  refine ⟨?_, ?_, by omega⟩
  · simp only [processCut]
    rw [hs, he]
  · rw [processCutOk_eq]
    simp only
    exact List.mem_append.mpr (Or.inr (List.mem_append.mpr
      (Or.inl (List.mem_singleton.mpr rfl))))

theorem degenerate_range_emitted_unclamped_witness :
    timecode_to_frames ("00:00:10") 30 = Except.ok 300 ∧
    timecode_to_frames ("00:00:05") 30 = Except.ok 150 ∧
    ((150 : Int) ≤ 300) ∧
    (processCut false ("") ("#E96502") ("d") ("v.mp4") 1 1 1 initState
        (0, { start := ("00:00:10"), «end» := ("00:00:05"), label := ("r") }) =
      Except.ok (processCutOk false ("") ("d") ("v.mp4") 1 1 1 initState 0
        { start := ("00:00:10"), «end» := ("00:00:05"), label := ("r") } 300 150) ∧
    VElem.clip initState.clip_id_counter 1 1 ("v.mp4") initState.current_start
        (initState.current_start + (150 - 300)) 300 150 ∈
      (processCutOk false ("") ("d") ("v.mp4") 1 1 1 initState 0
        { start := ("00:00:10"), «end» := ("00:00:05"), label := ("r") } 300 150).video_clips ∧
    initState.current_start + (150 - 300) ≤ initState.current_start) :=
  ⟨rfl, rfl, by norm_num,
    degenerate_range_emitted_unclamped false ("") ("#E96502") ("d") ("v.mp4") 1 1 1 initState 0
      { start := ("00:00:10"), «end» := ("00:00:05"), label := ("r") } 300 150 rfl rfl
      (by norm_num)⟩

/-- C2 counterexample: the intro transition is emitted as `(203, 217)` and
its span `217 - 203 = 14` is NOT the fixed transition duration 15. -/
theorem transition_span_counterexample :
    assemble ("S") [] true true ("#E96502") ("") ("title_cards") =
      Except.ok
        { video_clips := [VElem.title 4 ("Intro Title") 0 210 ("S/title_cards/title_card_4.png"),
            VElem.transition 203 217],
          audio_clips := [], current_start := 210, clip_id_counter := 5,
          source_file_ids := [], source_masterclip_ids := [], file_id_counter := 1 } ∧
    VElem.transition 203 217 ∈
      [VElem.title 4 ("Intro Title") 0 210 ("S/title_cards/title_card_4.png"),
        VElem.transition 203 217] ∧
    ((217 : Int) - 203 ≠ transition_duration) := ⟨rfl, by decide, by decide⟩

/-- C2 amended: every emitted Transition has `start = b - d/2`,
`end = b + d/2` (integer division) for its boundary `b = (start+end)/2`, so
its span is `2*(d/2) = 14` — one frame short of the odd nominal duration
`d = 15` — and the pair is symmetric around the boundary. -/
theorem transition_span_symmetric (sd : String) (sources : List (String × List Cut))
    (itc tbf : Bool) (bg tt dir : String) (st : GenState)
    (h : assemble sd sources itc tbf bg tt dir = Except.ok st) :
    ∀ s e, VElem.transition s e ∈ st.video_clips →
      e - s = 2 * (transition_duration / 2) ∧
      s = (s + e) / 2 - transition_duration / 2 ∧
      e = (s + e) / 2 + transition_duration / 2 := by
  obtain ⟨Δ, total, names, _, _, _, _, hspan, _, _, _⟩ :=
    assemble_main sd sources itc tbf bg tt dir st h
  intro s e hmem
  have h14 := hspan s e hmem
  have h7 : (transition_duration / 2 : Int) = 7 := by decide
  rw [h7] at h14 ⊢
  omega

theorem transition_span_symmetric_witness :
    assemble ("T") [] true true ("#E96502") ("X") ("tc") =
      Except.ok
        { video_clips := [VElem.title 4 ("X") 0 210 ("T/tc/title_card_4.png"),
            VElem.transition 203 217],
          audio_clips := [], current_start := 210, clip_id_counter := 5,
          source_file_ids := [], source_masterclip_ids := [], file_id_counter := 1 } ∧
    ((217 : Int) - 203 = 2 * (transition_duration / 2) ∧
      (203 : Int) = (203 + 217) / 2 - transition_duration / 2 ∧
      (217 : Int) = (203 + 217) / 2 + transition_duration / 2) :=
  ⟨rfl, transition_span_symmetric ("T") [] true true ("#E96502") ("X") ("tc") _ rfl 203 217
    (by decide)⟩

/-- C3: the total sequence duration declared in the rendered document is
the final frame-cursor value: it equals the spec-side sum of all clip
durations plus the title-card durations (intro title included when both
flags are set; transitions contribute nothing), and `generate_xml` embeds
exactly that cursor value as the sequence duration. -/
theorem sequence_duration_eq_cursor (abspath : String → String)
    (sd uuid filename : String) (sources : List (String × List Cut))
    (itc tbf : Bool) (bg tt dir : String) (st : GenState)
    (h : assemble sd sources itc tbf bg tt dir = Except.ok st) :
    sequenceDurationSpec itc tbf sources = Except.ok st.current_start ∧
    generate_xml abspath sd uuid filename sources itc tbf bg tt dir =
      Except.ok (xml_content uuid filename st.current_start
        (st.video_clips.map (renderVElem abspath)) (st.audio_clips.map audio_clip_xml)) := by
  obtain ⟨Δ, total, names, hdur, _, _, hcur, _, _, _, _⟩ :=
    assemble_main sd sources itc tbf bg tt dir st h
  constructor
  · have hspec : sequenceDurationSpec itc tbf sources =
        Except.ok ((if itc ∧ tbf then title_duration else 0) + total) := by
      simp only [sequenceDurationSpec, hdur]
      rfl
    rw [hspec, hcur]
  · unfold generate_xml
    rw [h]
    rfl

theorem sequence_duration_eq_cursor_witness :
    assemble ("S")
        [(("a.mp4"), [{ start := ("00:00:01"), «end» := ("00:00:02"), label := ("L1") }])]
        true true ("#E96502") ("T") ("tc") =
      Except.ok
        { video_clips := [VElem.title 4 ("T") 0 210 ("S/tc/title_card_4.png"),
            VElem.transition 203 217, VElem.clip 5 1 1 ("a.mp4") 210 240 30 60],
          audio_clips := [⟨5, 1, 1, ("a.mp4"), 210, 240, 30, 60, 1⟩,
            ⟨5, 1, 1, ("a.mp4"), 210, 240, 30, 60, 2⟩],
          current_start := 240, clip_id_counter := 6,
          source_file_ids := [(("a.mp4"), 1)], source_masterclip_ids := [(("a.mp4"), 1)],
          file_id_counter := 2 } ∧
    sequenceDurationSpec true true
        [(("a.mp4"), [{ start := ("00:00:01"), «end» := ("00:00:02"), label := ("L1") }])] =
      Except.ok (240 : Int) :=
  ⟨rfl, (sequence_duration_eq_cursor (fun p => p) ("S") ("u") ("P")
      [(("a.mp4"), [{ start := ("00:00:01"), «end» := ("00:00:02"), label := ("L1") }])]
      true true ("#E96502") ("T") ("tc") _ rfl).1⟩

/-- C4: with title cards enabled, the video track's element-kind sequence
is the optional intro pair followed, per source, by `cutTags n`: cut `i` of
an `n`-cut source is followed by transition/title/transition exactly when
`i + 1 < n`, so the last cut of a source is never followed by a title even
when another source follows, and a 3-cut source yields exactly 2 inter-cut
titles; moreover every transition/title/transition triple straddles the
title's start boundary and its end boundary (cursor advanced by the title
duration). -/
theorem inter_cut_title_emission (sd : String) (sources : List (String × List Cut))
    (tbf : Bool) (bg tt dir : String) (st : GenState)
    (h : assemble sd sources true tbf bg tt dir = Except.ok st) :
    st.video_clips.map tagOf =
      (if tbf then [Tag.title, Tag.transition] else []) ++
        (sources.map (fun sc => cutTags sc.2.length)).join ∧
    (cutTags 3).count Tag.title = 2 ∧
    (∀ j s1 e1 cid txt ts td ip s2 e2,
      st.video_clips.get? j = some (VElem.transition s1 e1) →
      st.video_clips.get? (j + 1) = some (VElem.title cid txt ts td ip) →
      st.video_clips.get? (j + 2) = some (VElem.transition s2 e2) →
      s1 = ts - transition_duration / 2 ∧ e1 = ts + transition_duration / 2 ∧
        td = title_duration ∧
        s2 = ts + title_duration - transition_duration / 2 ∧
        e2 = ts + title_duration + transition_duration / 2) := by
  obtain ⟨Δ, total, names, _, hvid, htags, _, _, hflank, _, _⟩ :=
    assemble_main sd sources true tbf bg tt dir st h
  refine ⟨?_, by decide, hflank⟩
  rw [hvid, List.map_append, htags]
  congr 1
  by_cases htbf : tbf = true
  · rw [if_pos ⟨rfl, htbf⟩, if_pos htbf]
    rfl
  · rw [if_neg (fun hx => htbf hx.2), if_neg htbf]
    rfl

theorem inter_cut_title_emission_witness :
    assemble ("S")
        [(("a.mp4"), [{ start := ("00:00:01"), «end» := ("00:00:02"), label := ("L1") },
          { start := ("00:00:03"), «end» := ("00:00:04"), label := ("L2") }]),
         (("b.mp4"), [{ start := ("00:00:05"), «end» := ("00:00:06"), label := ("L3") }])]
        true false ("#E96502") ("") ("tc") =
      Except.ok
        { video_clips := [VElem.clip 4 1 1 ("a.mp4") 0 30 30 60,
            VElem.transition 23 37,
            VElem.title 5 ("L1") 30 210 ("S/tc/title_card_5.png"),
            VElem.transition 233 247,
            VElem.clip 6 1 1 ("a.mp4") 240 270 90 120,
            VElem.clip 7 2 2 ("b.mp4") 270 300 150 180],
          audio_clips := [⟨4, 1, 1, ("a.mp4"), 0, 30, 30, 60, 1⟩,
            ⟨4, 1, 1, ("a.mp4"), 0, 30, 30, 60, 2⟩,
            ⟨6, 1, 1, ("a.mp4"), 240, 270, 90, 120, 1⟩,
            ⟨6, 1, 1, ("a.mp4"), 240, 270, 90, 120, 2⟩,
            ⟨7, 2, 2, ("b.mp4"), 270, 300, 150, 180, 1⟩,
            ⟨7, 2, 2, ("b.mp4"), 270, 300, 150, 180, 2⟩],
          current_start := 300, clip_id_counter := 8,
          source_file_ids := [(("a.mp4"), 1), (("b.mp4"), 2)],
          source_masterclip_ids := [(("a.mp4"), 1), (("b.mp4"), 2)],
          file_id_counter := 3 } ∧
    [VElem.clip 4 1 1 ("a.mp4") 0 30 30 60,
        VElem.transition 23 37,
        VElem.title 5 ("L1") 30 210 ("S/tc/title_card_5.png"),
        VElem.transition 233 247,
        VElem.clip 6 1 1 ("a.mp4") 240 270 90 120,
        VElem.clip 7 2 2 ("b.mp4") 270 300 150 180].map tagOf =
      [Tag.clip, Tag.transition, Tag.title, Tag.transition, Tag.clip, Tag.clip] := by
  constructor
  · rfl
  · have hm := (inter_cut_title_emission ("S")
      [(("a.mp4"), [{ start := ("00:00:01"), «end» := ("00:00:02"), label := ("L1") },
        { start := ("00:00:03"), «end» := ("00:00:04"), label := ("L2") }]),
       (("b.mp4"), [{ start := ("00:00:05"), «end» := ("00:00:06"), label := ("L3") }])]
      false ("#E96502") ("") ("tc") _ rfl).1
    exact hm.trans (by decide)

/-- C7 counterexample: with "title before first cut" requested but title
cards disabled, no intro TitleClip is emitted at all — the first (and only)
video element is the media clip. -/
theorem intro_title_requires_cards_counterexample :
    (assemble ("S")
        [(("v.mp4"), [{ start := ("00:00:05"), «end» := ("00:00:10"), label := ("x") }])]
        false true ("#E96502") ("T") ("tc")).map (fun st => st.video_clips.map tagOf) =
      Except.ok [Tag.clip] := rfl

/-- C7 amended: whenever title cards are enabled AND "title before first
cut" is requested, assembly first emits a TitleClip at cursor 0 captioned
with the configured title text (default placeholder "Intro Title" when
empty), advances the cursor by `title_duration`, then emits one Transition
centred at the new cursor, leaving the cursor at `title_duration`; these
two elements head the video track. -/
theorem intro_title_block (sd : String) (sources : List (String × List Cut))
    (bg tt dir : String) (st : GenState)
    (h : assemble sd sources true true bg tt dir = Except.ok st) :
    introStep (joinPath sd dir) bg tt initState =
      { video_clips := [VElem.title 4 (if tt = "" then "Intro Title" else tt) 0 title_duration
            (joinPath (joinPath sd dir) ("title_card_4.png")),
          VElem.transition (title_duration - transition_duration / 2)
            (title_duration + transition_duration / 2)],
        audio_clips := [], current_start := title_duration, clip_id_counter := 5,
        source_file_ids := [], source_masterclip_ids := [], file_id_counter := 1 } ∧
    st.video_clips.take 2 =
      [VElem.title 4 (if tt = "" then "Intro Title" else tt) 0 title_duration
          (joinPath (joinPath sd dir) ("title_card_4.png")),
        VElem.transition (title_duration - transition_duration / 2)
          (title_duration + transition_duration / 2)] := by
  refine ⟨introStep_initState _ _ _, ?_⟩
  obtain ⟨Δ, total, names, _, hvid, _, _, _, _, _, _⟩ :=
    assemble_main sd sources true true bg tt dir st h
  rw [hvid, if_pos ⟨rfl, rfl⟩]
  rfl

theorem intro_title_block_witness :
    assemble ("S")
        [(("v.mp4"), [{ start := ("00:00:05"), «end» := ("00:00:10"), label := ("x") }])]
        true true ("#E96502") ("") ("tc") =
      Except.ok
        { video_clips := [VElem.title 4 ("Intro Title") 0 210 ("S/tc/title_card_4.png"),
            VElem.transition 203 217, VElem.clip 5 1 1 ("v.mp4") 210 360 150 300],
          audio_clips := [⟨5, 1, 1, ("v.mp4"), 210, 360, 150, 300, 1⟩,
            ⟨5, 1, 1, ("v.mp4"), 210, 360, 150, 300, 2⟩],
          current_start := 360, clip_id_counter := 6,
          source_file_ids := [(("v.mp4"), 1)], source_masterclip_ids := [(("v.mp4"), 1)],
          file_id_counter := 2 } ∧
    [VElem.title 4 ("Intro Title") 0 210 ("S/tc/title_card_4.png"),
        VElem.transition 203 217, VElem.clip 5 1 1 ("v.mp4") 210 360 150 300].take 2 =
      [VElem.title 4 (if ("" : String) = "" then "Intro Title" else "") 0 title_duration
          (joinPath (joinPath ("S") ("tc")) ("title_card_4.png")),
        VElem.transition (title_duration - transition_duration / 2)
          (title_duration + transition_duration / 2)] := by
  refine ⟨rfl, ?_⟩
  exact (intro_title_block ("S")
    [(("v.mp4"), [{ start := ("00:00:05"), «end» := ("00:00:10"), label := ("x") }])]
    ("#E96502") ("") ("tc") _ rfl).2

/-- C8: within one assembly pass every cut of the same source identifier is
emitted with the same `(fileId, masterclipId)` pair, distinct identifiers
get distinct pairs, and the shared counter starts at 1 and ends at one plus
the number of distinct source identifiers (one increment per new
identifier, not per cut). -/
theorem source_id_allocation (sd : String) (sources : List (String × List Cut))
    (itc tbf : Bool) (bg tt dir : String) (st : GenState)
    (h : assemble sd sources itc tbf bg tt dir = Except.ok st) :
    (∀ cid1 m1 f1 s1 a1 b1 i1 o1 cid2 m2 f2 s2 a2 b2 i2 o2,
      VElem.clip cid1 m1 f1 s1 a1 b1 i1 o1 ∈ st.video_clips →
      VElem.clip cid2 m2 f2 s2 a2 b2 i2 o2 ∈ st.video_clips →
      ((s1 = s2 → f1 = f2 ∧ m1 = m2) ∧ (s1 ≠ s2 → (f1, m1) ≠ (f2, m2)))) ∧
    st.file_id_counter = 1 + (sources.map Prod.fst).toFinset.card := by
  obtain ⟨Δ, total, names, _, _, _, _, _, _, inv, hfins⟩ :=
    assemble_main sd sources itc tbf bg tt dir st h
  constructor
  · intro cid1 m1 f1 s1 a1 b1 i1 o1 cid2 m2 f2 s2 a2 b2 i2 o2 hm1 hm2
    obtain ⟨hmf1, htb1⟩ := inv.clips _ hm1 cid1 m1 f1 s1 a1 b1 i1 o1 rfl
    obtain ⟨hmf2, htb2⟩ := inv.clips _ hm2 cid2 m2 f2 s2 a2 b2 i2 o2 rfl
    constructor
    · intro hss
      subst hss
      have hff := idAssignFrom_key_unique inv.nd htb1 htb2
      exact ⟨hff, by rw [hmf1, hmf2, hff]⟩
    · intro hss hcontra
      injection hcontra with hf _
      exact hss (idAssignFrom_val_inj htb1 (hf ▸ htb2))
  · rw [inv.ctr, ← hfins, List.toFinset_card_of_nodup inv.nd]

theorem source_id_allocation_witness :
    assemble ("S")
        [(("a.mp4"), [{ start := ("00:00:01"), «end» := ("00:00:02"), label := ("L1") },
          { start := ("00:00:03"), «end» := ("00:00:04"), label := ("L2") }]),
         (("b.mp4"), [{ start := ("00:00:05"), «end» := ("00:00:06"), label := ("L3") }])]
        false false ("#E96502") ("") ("tc") =
      Except.ok
        { video_clips := [VElem.clip 4 1 1 ("a.mp4") 0 30 30 60,
            VElem.clip 5 1 1 ("a.mp4") 30 60 90 120,
            VElem.clip 6 2 2 ("b.mp4") 60 90 150 180],
          audio_clips := [⟨4, 1, 1, ("a.mp4"), 0, 30, 30, 60, 1⟩,
            ⟨4, 1, 1, ("a.mp4"), 0, 30, 30, 60, 2⟩,
            ⟨5, 1, 1, ("a.mp4"), 30, 60, 90, 120, 1⟩,
            ⟨5, 1, 1, ("a.mp4"), 30, 60, 90, 120, 2⟩,
            ⟨6, 2, 2, ("b.mp4"), 60, 90, 150, 180, 1⟩,
            ⟨6, 2, 2, ("b.mp4"), 60, 90, 150, 180, 2⟩],
          current_start := 90, clip_id_counter := 7,
          source_file_ids := [(("a.mp4"), 1), (("b.mp4"), 2)],
          source_masterclip_ids := [(("a.mp4"), 1), (("b.mp4"), 2)],
          file_id_counter := 3 } ∧
    ({ video_clips := [VElem.clip 4 1 1 ("a.mp4") 0 30 30 60,
            VElem.clip 5 1 1 ("a.mp4") 30 60 90 120,
            VElem.clip 6 2 2 ("b.mp4") 60 90 150 180],
          audio_clips := [⟨4, 1, 1, ("a.mp4"), 0, 30, 30, 60, 1⟩,
            ⟨4, 1, 1, ("a.mp4"), 0, 30, 30, 60, 2⟩,
            ⟨5, 1, 1, ("a.mp4"), 30, 60, 90, 120, 1⟩,
            ⟨5, 1, 1, ("a.mp4"), 30, 60, 90, 120, 2⟩,
            ⟨6, 2, 2, ("b.mp4"), 60, 90, 150, 180, 1⟩,
            ⟨6, 2, 2, ("b.mp4"), 60, 90, 150, 180, 2⟩],
          current_start := 90, clip_id_counter := 7,
          source_file_ids := [(("a.mp4"), 1), (("b.mp4"), 2)],
          source_masterclip_ids := [(("a.mp4"), 1), (("b.mp4"), 2)],
          file_id_counter := 3 } : GenState).file_id_counter =
      1 + (([(("a.mp4"), ([] : List Cut)), (("b.mp4"), [])].map Prod.fst).toFinset.card) := by
  refine ⟨rfl, ?_⟩
  have hc := (source_id_allocation ("S")
    [(("a.mp4"), [{ start := ("00:00:01"), «end» := ("00:00:02"), label := ("L1") },
      { start := ("00:00:03"), «end» := ("00:00:04"), label := ("L2") }]),
     (("b.mp4"), [{ start := ("00:00:05"), «end» := ("00:00:06"), label := ("L3") }])]
    false false ("#E96502") ("") ("tc") _ rfl).2
  exact hc.trans (by decide)

/-- C10: every emitted media clip references `masterclip-k` and `file-k`
with the same integer `k` — both ids are drawn from one shared counter. -/
theorem masterclip_id_eq_file_id (sd : String) (sources : List (String × List Cut))
    (itc tbf : Bool) (bg tt dir : String) (st : GenState)
    (h : assemble sd sources itc tbf bg tt dir = Except.ok st) :
    ∀ cid m f s a b i o, VElem.clip cid m f s a b i o ∈ st.video_clips → m = f := by
  obtain ⟨Δ, total, names, _, _, _, _, _, _, inv, _⟩ :=
    assemble_main sd sources itc tbf bg tt dir st h
  intro cid m f s a b i o hmem
  exact (inv.clips _ hmem cid m f s a b i o rfl).1

theorem masterclip_id_eq_file_id_witness :
    assemble ("S")
        [(("v.mp4"), [{ start := ("00:00:05"), «end» := ("00:00:10"), label := ("x") }])]
        false false ("#E96502") ("") ("tc") =
      Except.ok
        { video_clips := [VElem.clip 4 1 1 ("v.mp4") 0 150 150 300],
          audio_clips := [⟨4, 1, 1, ("v.mp4"), 0, 150, 150, 300, 1⟩,
            ⟨4, 1, 1, ("v.mp4"), 0, 150, 150, 300, 2⟩],
          current_start := 150, clip_id_counter := 5,
          source_file_ids := [(("v.mp4"), 1)], source_masterclip_ids := [(("v.mp4"), 1)],
          file_id_counter := 2 } ∧
    (1 : Nat) = 1 := by
  refine ⟨rfl, ?_⟩
  exact masterclip_id_eq_file_id ("S")
    [(("v.mp4"), [{ start := ("00:00:05"), «end» := ("00:00:10"), label := ("x") }])]
    false false ("#E96502") ("") ("tc") _ rfl 4 1 1 ("v.mp4") 0 150 150 300 (by
      show VElem.clip 4 1 1 ("v.mp4") 0 150 150 300 ∈ [VElem.clip 4 1 1 ("v.mp4") 0 150 150 300]
      exact List.mem_singleton.mpr rfl)

/-- C9 counterexample: rendering a project whose name contains the reserved
characters `&` and `<` embeds the name verbatim as the text of the sequence
`<name>` element — the produced document is the fixed wrapper, then the raw
name, then the rest, with no entity escaping (`&amp;`/`&lt;` never
produced), so the document is not well-formed markup. -/
theorem markup_not_escaped_counterexample :
    generate_xml (fun p => p) ("S") ("u") ("A&B<C") [] false false ("#E96502") ("") ("tc") =
      Except.ok (xml_content ("u") ("A&B<C") 0 [] []) ∧
    xml_content ("u") ("A&B<C") 0 [] [] =
      (xml_head1 ++ ("u") ++ xml_head2 ++ toString (0 : Int) ++ xml_head3) ++
        (("A&B<C") ++
          (xml_mid1 ++ pyJoin ("\n") [] ++ xml_mid2 ++ pyJoin ("\n") [] ++ xml_tail)) ∧
    ("<name>").data.isSuffixOf xml_head3.data = true ∧
    pyStartsWith ("</name>") xml_mid1 = true ∧
    pyContains '&' ("A&B<C") = true ∧
    pyContains '<' ("A&B<C") = true ∧
    ("A&B<C") ≠ ("A&amp;B&lt;C") :=
  ⟨rfl, rfl, by decide, by decide, by decide, by decide, by decide⟩

/-- C9 amended: the Document Renderer performs no escaping at all — the
project name and each clip's source identifier are embedded verbatim
between fixed template chunks of the document, so well-formedness holds
only for inputs free of reserved markup characters. -/
theorem markup_verbatim_embedding :
    (∀ (sequence_uuid : String) (total_frames : Int) (video audio : List String),
      ∃ pre post : String, ∀ filename : String,
        xml_content sequence_uuid filename total_frames video audio =
          pre ++ (filename ++ post)) ∧
    (∀ (abspath : String → String) (cid mid fid : Nat) (s e i o : Int),
      ∃ (pre : String) (rest : String → String), ∀ source_file : String,
        media_clip_xml abspath cid mid fid source_file s e i o =
          pre ++ (source_file ++ rest source_file)) := by
  constructor
  · intro sequence_uuid total_frames video audio
    exact ⟨xml_head1 ++ sequence_uuid ++ xml_head2 ++ toString total_frames ++ xml_head3,
      xml_mid1 ++ pyJoin ("\n") video ++ xml_mid2 ++ pyJoin ("\n") audio ++ xml_tail,
      fun filename => rfl⟩
  · intro abspath cid mid fid s e i o
    exact ⟨mc_head cid mid,
      fun sf => mc_mid1 s e i o fid ++ (sf ++ (mc_mid2 ++ (abspath sf ++ mc_tail))),
      fun sf => rfl⟩
